import Mathlib

/-!
Shallow embedding of the smart traffic light controller (src/main.cpp).

The sketch is a single-threaded Arduino program.  We model its global
state (current phase, the two vehicle counts, the pedestrian request
latch, the remembered button levels and the LED pin levels) as a record
`St`, and every function of the sketch as a state transformer.  Input
button levels are supplied as a stream `input : Nat -> Buttons`, indexed
by the poll counter `pollIdx` which advances once per `readButtons` call.

To state temporal and transient properties we instrument the state with
append-only logs:
  * `phaseLog`  records every assignment to `currentPhase`;
  * `ledLog`    records, after every single `digitalWrite`, the pair of
                current phase and resulting LED levels (so transient LED
                states inside a composite setter are all visible);
  * `lcdLog`    records every full two-line LCD screen written;
  * `tickLog`   records, for every per-second countdown refresh, the
                emitting site and the displayed remaining seconds;
  * `ticks`     counts calls to `waitOneSecondWithButtons` (elapsed
                seconds of the tick clock).
-/

namespace TrafficLight

/-- Digital level HIGH of the sketch. -/
def HIGH : Bool := true

/-- Digital level LOW of the sketch. -/
def LOW : Bool := false

/-- The five-valued phase enumeration of the sketch. -/
inductive Phase where
  | PHASE_NS_GREEN
  | PHASE_NS_YELLOW
  | PHASE_EW_GREEN
  | PHASE_EW_YELLOW
  | PHASE_PED_GREEN
deriving DecidableEq, Repr

open Phase

/-- Levels of the three momentary buttons at one poll (true = HIGH). -/
structure Buttons where
  ns : Bool
  ew : Bool
  ped : Bool
deriving DecidableEq, Repr

/-- Levels of the eight LED output pins. -/
structure Leds where
  nsRed : Bool
  nsYellow : Bool
  nsGreen : Bool
  ewRed : Bool
  ewYellow : Bool
  ewGreen : Bool
  pedRed : Bool
  pedGreen : Bool
deriving DecidableEq, Repr

/-- The eight LED output pins of the sketch. -/
inductive Pin where
  | PIN_NS_RED
  | PIN_NS_YELLOW
  | PIN_NS_GREEN
  | PIN_EW_RED
  | PIN_EW_YELLOW
  | PIN_EW_GREEN
  | PIN_PED_RED
  | PIN_PED_GREEN
deriving DecidableEq, Repr

/-- Code sites that perform a per-second countdown LCD refresh. -/
inductive Site where
  | nsGreenTick
  | nsYellowTick
  | ewGreenTick
  | ewYellowTick
  | pedTick
deriving DecidableEq, Repr

/-- The whole mutable state of the sketch, plus instrumentation logs. -/
structure St where
  currentPhase : Phase
  trafficCountNS : Nat
  trafficCountEW : Nat
  pedRequest : Bool
  lastNsBtnState : Bool
  lastEwBtnState : Bool
  lastPedBtnState : Bool
  leds : Leds
  pollIdx : Nat
  ticks : Nat
  phaseLog : List Phase
  ledLog : List (Phase × Leds)
  lcdLog : List (String × String)
  tickLog : List (Site × Nat)
deriving DecidableEq, Repr

/-- Update one LED pin level. -/
def Leds.write (l : Leds) : Pin → Bool → Leds
  | Pin.PIN_NS_RED, v => { l with nsRed := v }
  | Pin.PIN_NS_YELLOW, v => { l with nsYellow := v }
  | Pin.PIN_NS_GREEN, v => { l with nsGreen := v }
  | Pin.PIN_EW_RED, v => { l with ewRed := v }
  | Pin.PIN_EW_YELLOW, v => { l with ewYellow := v }
  | Pin.PIN_EW_GREEN, v => { l with ewGreen := v }
  | Pin.PIN_PED_RED, v => { l with pedRed := v }
  | Pin.PIN_PED_GREEN, v => { l with pedGreen := v }

/-- `digitalWrite(pin, v)`: set a pin and record the resulting transient
LED state together with the phase current at the instant of the write. -/
def digitalWrite (p : Pin) (v : Bool) (s : St) : St :=
  let l := s.leds.write p v
  { s with leds := l, ledLog := s.ledLog ++ [(s.currentPhase, l)] }

/-- Assignment `currentPhase = p`, recorded in the phase log and
(as an instant where the phase/LED pair changes) in the LED log. -/
def setPhase (p : Phase) (s : St) : St :=
  { s with currentPhase := p
         , phaseLog := s.phaseLog ++ [p]
         , ledLog := s.ledLog ++ [(p, s.leds)] }

/-- A full two-line LCD screen write. -/
def pushLcd (l1 l2 : String) (s : St) : St :=
  { s with lcdLog := s.lcdLog ++ [(l1, l2)] }

/-- A per-second countdown refresh: the two-line screen plus the
instrumentation record of the site and displayed remaining seconds. -/
def lcdRefresh (site : Site) (remaining : Nat) (l1 l2 : String) (s : St) : St :=
  { s with lcdLog := s.lcdLog ++ [(l1, l2)]
         , tickLog := s.tickLog ++ [(site, remaining)] }

/-- Constant `YELLOW_TIME_SEC` of the sketch. -/
def YELLOW_TIME_SEC : Nat := 3

/-- Constant `PED_TIME_SEC` of the sketch. -/
def PED_TIME_SEC : Nat := 8

/-- Constant `BASE_GREEN_SEC` of the sketch. -/
def BASE_GREEN_SEC : Nat := 10

/-- `isNsRed()`: NS is in its "red period" when the phase is neither NS
green nor NS yellow. -/
def isNsRed (p : Phase) : Bool :=
  p == PHASE_EW_GREEN || p == PHASE_EW_YELLOW || p == PHASE_PED_GREEN

/-- `isEwRed()`: EW is in its "red period" when the phase is neither EW
green nor EW yellow. -/
def isEwRed (p : Phase) : Bool :=
  p == PHASE_NS_GREEN || p == PHASE_NS_YELLOW || p == PHASE_PED_GREEN

/-- The NS-count-button section of `readButtons`, given the sampled NS
level `b`.  On a HIGH-to-LOW press edge: if NS is red, increment
`trafficCountNS` and show the acknowledgment screen, else show the
rejection screen.  The remembered level is updated in every case. -/
def nsButtonStep (b : Bool) (s : St) : St :=
  let s1 :=
    if b = LOW ∧ s.lastNsBtnState = HIGH then
      if isNsRed s.currentPhase = true then
        let s' := { s with trafficCountNS := s.trafficCountNS + 1 }
        pushLcd "NS RED: Count" ("NS=" ++ toString s'.trafficCountNS) s'
      else
        pushLcd "NS not RED" "No count" s
    else s
  { s1 with lastNsBtnState := b }

/-- The EW-count-button section of `readButtons`. -/
def ewButtonStep (b : Bool) (s : St) : St :=
  let s1 :=
    if b = LOW ∧ s.lastEwBtnState = HIGH then
      if isEwRed s.currentPhase = true then
        let s' := { s with trafficCountEW := s.trafficCountEW + 1 }
        pushLcd "EW RED: Count" ("EW=" ++ toString s'.trafficCountEW) s'
      else
        pushLcd "EW not RED" "No count" s
    else s
  { s1 with lastEwBtnState := b }

/-- The pedestrian-button section of `readButtons`: on a press edge the
request latch is set unconditionally. -/
def pedButtonStep (b : Bool) (s : St) : St :=
  let s1 :=
    if b = LOW ∧ s.lastPedBtnState = HIGH then
      pushLcd "Pedestrian Req" "Stored" { s with pedRequest := true }
    else s
  { s1 with lastPedBtnState := b }

/-- `readButtons()`: sample the three button levels at the current poll
index, run the three button sections, and advance the poll index. -/
def readButtons (input : Nat → Buttons) (s : St) : St :=
  let b := input s.pollIdx
  let s3 := pedButtonStep b.ped (ewButtonStep b.ew (nsButtonStep b.ns s))
  { s3 with pollIdx := s.pollIdx + 1 }

/-- `n` consecutive `readButtons` polls. -/
def pollLoop (input : Nat → Buttons) : Nat → St → St
  | 0, s => s
  | n + 1, s => pollLoop input n (readButtons input s)

/-- `waitOneSecondWithButtons()`: 50 polls of `readButtons` make up one
second; the tick counter records the elapsed second. -/
def waitOneSecondWithButtons (input : Nat → Buttons) (s : St) : St :=
  let s' := pollLoop input 50 s
  { s' with ticks := s'.ticks + 1 }

/-- `computeNsGreenSeconds()`: base green plus the count-dependent extra
for the NS approach. -/
def computeNsGreenSeconds (s : St) : Nat :=
  let extra : Nat :=
    if s.trafficCountNS ≥ 15 then 30
    else if s.trafficCountNS ≥ 10 then 20
    else if s.trafficCountNS ≥ 5 then 10
    else 0
  BASE_GREEN_SEC + extra

/-- `computeEwGreenSeconds()`: base green plus the count-dependent extra
for the EW approach. -/
def computeEwGreenSeconds (s : St) : Nat :=
  let extra : Nat :=
    if s.trafficCountEW ≥ 15 then 30
    else if s.trafficCountEW ≥ 10 then 20
    else if s.trafficCountEW ≥ 5 then 10
    else 0
  BASE_GREEN_SEC + extra

/-- The (clamped) `extraSecs` computation at vehicle-green entry:
`extraSecs = totalSecs - baseSecs; if (extraSecs < 0) extraSecs = 0;`
carried out in integers as in the C source. -/
def clampedExtra (totalSecs : Nat) : Int :=
  let extraSecs : Int := (totalSecs : Int) - (BASE_GREEN_SEC : Int)
  if extraSecs < 0 then 0 else extraSecs

/-- `setAllVehicleRed()`: six sequential `digitalWrite`s. -/
def setAllVehicleRed (s : St) : St :=
  let s1 := digitalWrite Pin.PIN_NS_RED HIGH s
  let s2 := digitalWrite Pin.PIN_NS_YELLOW LOW s1
  let s3 := digitalWrite Pin.PIN_NS_GREEN LOW s2
  let s4 := digitalWrite Pin.PIN_EW_RED HIGH s3
  let s5 := digitalWrite Pin.PIN_EW_YELLOW LOW s4
  digitalWrite Pin.PIN_EW_GREEN LOW s5

/-- `setNsGreenState()`: all red, then assert NS green. -/
def setNsGreenState (s : St) : St :=
  let s1 := setAllVehicleRed s
  let s2 := digitalWrite Pin.PIN_NS_RED LOW s1
  digitalWrite Pin.PIN_NS_GREEN HIGH s2

/-- `setNsYellowState()`: all red, then assert NS yellow. -/
def setNsYellowState (s : St) : St :=
  let s1 := setAllVehicleRed s
  let s2 := digitalWrite Pin.PIN_NS_RED LOW s1
  digitalWrite Pin.PIN_NS_YELLOW HIGH s2

/-- `setEwGreenState()`: all red, then assert EW green. -/
def setEwGreenState (s : St) : St :=
  let s1 := setAllVehicleRed s
  let s2 := digitalWrite Pin.PIN_EW_RED LOW s1
  digitalWrite Pin.PIN_EW_GREEN HIGH s2

/-- `setEwYellowState()`: all red, then assert EW yellow. -/
def setEwYellowState (s : St) : St :=
  let s1 := setAllVehicleRed s
  let s2 := digitalWrite Pin.PIN_EW_RED LOW s1
  digitalWrite Pin.PIN_EW_YELLOW HIGH s2

/-- `setPedestrianGreenState()`: all vehicle red, then pedestrian green. -/
def setPedestrianGreenState (s : St) : St :=
  let s1 := setAllVehicleRed s
  let s2 := digitalWrite Pin.PIN_PED_RED LOW s1
  digitalWrite Pin.PIN_PED_GREEN HIGH s2

/-- One countdown iteration's LCD refresh during NS green:
line 1 `"NSG <base>+<extra>s"`, line 2 `"T=<remaining> EW=<count>"`
with the live EW count of the state at this instant. -/
def nsGreenLcd (baseSecs : Nat) (extraSecs : Int) (remaining : Nat) (s : St) : St :=
  lcdRefresh Site.nsGreenTick remaining
    ("NSG " ++ toString baseSecs ++ "+" ++ toString extraSecs ++ "s")
    ("T=" ++ toString remaining ++ " EW=" ++ toString s.trafficCountEW) s

/-- The NS green countdown loop, from `remaining` down to 1. -/
def nsGreenLoop (input : Nat → Buttons) (baseSecs : Nat) (extraSecs : Int) :
    Nat → St → St
  | 0, s => s
  | r + 1, s =>
    nsGreenLoop input baseSecs extraSecs r
      (waitOneSecondWithButtons input (nsGreenLcd baseSecs extraSecs (r + 1) s))

/-- `phaseNsGreen()`. -/
def phaseNsGreen (input : Nat → Buttons) (s : St) : St :=
  let s0 := setPhase PHASE_NS_GREEN s
  let totalSecs := computeNsGreenSeconds s0
  let baseSecs := BASE_GREEN_SEC
  let extraSecs := clampedExtra totalSecs
  let s1 := setNsGreenState s0
  let s2 := nsGreenLoop input baseSecs extraSecs totalSecs s1
  { s2 with trafficCountNS := 0 }

/-- One countdown iteration's LCD refresh during NS yellow:
line 1 `"NSY T=<remaining>s"`, line 2 `"EW=<count>"`. -/
def nsYellowLcd (remaining : Nat) (s : St) : St :=
  lcdRefresh Site.nsYellowTick remaining
    ("NSY T=" ++ toString remaining ++ "s")
    ("EW=" ++ toString s.trafficCountEW) s

/-- The NS yellow countdown loop (the setter runs inside each iteration,
as in the source). -/
def nsYellowLoop (input : Nat → Buttons) : Nat → St → St
  | 0, s => s
  | r + 1, s =>
    nsYellowLoop input r
      (waitOneSecondWithButtons input (setNsYellowState (nsYellowLcd (r + 1) s)))

/-- `phaseNsYellow()`. -/
def phaseNsYellow (input : Nat → Buttons) (s : St) : St :=
  nsYellowLoop input YELLOW_TIME_SEC (setPhase PHASE_NS_YELLOW s)

/-- One countdown iteration's LCD refresh during EW green:
line 1 `"EWG <base>+<extra>s"`, line 2 `"T=<remaining> NS=<count>"`
with the live NS count of the state at this instant. -/
def ewGreenLcd (baseSecs : Nat) (extraSecs : Int) (remaining : Nat) (s : St) : St :=
  lcdRefresh Site.ewGreenTick remaining
    ("EWG " ++ toString baseSecs ++ "+" ++ toString extraSecs ++ "s")
    ("T=" ++ toString remaining ++ " NS=" ++ toString s.trafficCountNS) s

/-- The EW green countdown loop, from `remaining` down to 1. -/
def ewGreenLoop (input : Nat → Buttons) (baseSecs : Nat) (extraSecs : Int) :
    Nat → St → St
  | 0, s => s
  | r + 1, s =>
    ewGreenLoop input baseSecs extraSecs r
      (waitOneSecondWithButtons input (ewGreenLcd baseSecs extraSecs (r + 1) s))

/-- `phaseEwGreen()`. -/
def phaseEwGreen (input : Nat → Buttons) (s : St) : St :=
  let s0 := setPhase PHASE_EW_GREEN s
  let totalSecs := computeEwGreenSeconds s0
  let baseSecs := BASE_GREEN_SEC
  let extraSecs := clampedExtra totalSecs
  let s1 := setEwGreenState s0
  let s2 := ewGreenLoop input baseSecs extraSecs totalSecs s1
  { s2 with trafficCountEW := 0 }

/-- One countdown iteration's LCD refresh during EW yellow:
line 1 `"EWY T=<remaining>s"`, line 2 `"NS=<count>"`. -/
def ewYellowLcd (remaining : Nat) (s : St) : St :=
  lcdRefresh Site.ewYellowTick remaining
    ("EWY T=" ++ toString remaining ++ "s")
    ("NS=" ++ toString s.trafficCountNS) s

/-- The EW yellow countdown loop. -/
def ewYellowLoop (input : Nat → Buttons) : Nat → St → St
  | 0, s => s
  | r + 1, s =>
    ewYellowLoop input r
      (waitOneSecondWithButtons input (setEwYellowState (ewYellowLcd (r + 1) s)))

/-- `phaseEwYellow()`. -/
def phaseEwYellow (input : Nat → Buttons) (s : St) : St :=
  ewYellowLoop input YELLOW_TIME_SEC (setPhase PHASE_EW_YELLOW s)

/-- One countdown iteration's LCD refresh during pedestrian green:
line 1 `"PEDESTRIAN"`, line 2 `"T=<remaining> WALK"`. -/
def pedLcd (remaining : Nat) (s : St) : St :=
  lcdRefresh Site.pedTick remaining
    "PEDESTRIAN"
    ("T=" ++ toString remaining ++ " WALK") s

/-- The pedestrian green countdown loop. -/
def pedLoop (input : Nat → Buttons) : Nat → St → St
  | 0, s => s
  | r + 1, s =>
    pedLoop input r (waitOneSecondWithButtons input (pedLcd (r + 1) s))

/-- `phasePedestrianIfRequested()`: skip if the latch is clear, else run
the PED_GREEN phase, force all signals to stop states, show the stop
screen and clear the latch. -/
def phasePedestrianIfRequested (input : Nat → Buttons) (s : St) : St :=
  if s.pedRequest = false then s
  else
    let s0 := setPhase PHASE_PED_GREEN s
    let s1 := setPedestrianGreenState s0
    let s2 := pedLoop input PED_TIME_SEC s1
    let s3 := setAllVehicleRed s2
    let s4 := digitalWrite Pin.PIN_PED_RED HIGH s3
    let s5 := digitalWrite Pin.PIN_PED_GREEN LOW s4
    let s6 := pushLcd "PEDESTRIAN" "STOP" s5
    { s6 with pedRequest := false }

/-- The state right after global initialization (all pins LOW, globals at
their initializers), before `setup()` runs. -/
def initSt : St :=
  { currentPhase := PHASE_NS_GREEN
  , trafficCountNS := 0
  , trafficCountEW := 0
  , pedRequest := false
  , lastNsBtnState := HIGH
  , lastEwBtnState := HIGH
  , lastPedBtnState := HIGH
  , leds := ⟨false, false, false, false, false, false, false, false⟩
  , pollIdx := 0
  , ticks := 0
  , phaseLog := []
  , ledLog := []
  , lcdLog := []
  , tickLog := [] }

/-- `setup()` (the LED/LCD part; pin modes have no state in the model). -/
def setupSt : St :=
  let s1 := pushLcd "Traffic System" "Starting..." initSt
  let s2 := setAllVehicleRed s1
  let s3 := digitalWrite Pin.PIN_PED_RED HIGH s2
  let s4 := digitalWrite Pin.PIN_PED_GREEN LOW s3
  pushLcd "Traffic System" "Ready" s4

/-- One iteration of `loop()`: the fixed phase sequence with the two
pedestrian insertion points. -/
def loopOnce (input : Nat → Buttons) (s : St) : St :=
  phasePedestrianIfRequested input
    (phaseEwYellow input
      (phaseEwGreen input
        (phasePedestrianIfRequested input
          (phaseNsYellow input
            (phaseNsGreen input s)))))

/-- The state after `setup()` and `n` iterations of `loop()`. -/
def run (input : Nat → Buttons) : Nat → St
  | 0 => setupSt
  | n + 1 => loopOnce input (run input n)

/-- Modelled from the spec: the line-2 format `"T=<remaining> <OTHER>=<count>"`
claimed for vehicle-phase display refreshes. -/
def specVehicleLine2 (other : String) (remaining count : Nat) : String :=
  "T=" ++ toString remaining ++ " " ++ other ++ "=" ++ toString count

/-- The LED-output safety condition at one recorded instant: the two
vehicle greens are never both asserted, and pedestrian green is asserted
only while the phase is PED_GREEN. -/
def ledOkB (p : Phase) (l : Leds) : Bool :=
  (!(l.nsGreen && l.ewGreen)) && (!l.pedGreen || p == PHASE_PED_GREEN)

/-- All recorded LED instants, and the current instant, satisfy `ledOkB`. -/
def ledInvB (s : St) : Bool :=
  s.ledLog.all (fun e => ledOkB e.1 e.2) && ledOkB s.currentPhase s.leds

/-- The inductive invariant used between phases: `ledInvB` plus the fact
that pedestrian green is deasserted outside the pedestrian phase body. -/
def goodB (s : St) : Bool :=
  ledInvB s && !s.leds.pedGreen

/-- The invariant holding inside the pedestrian phase body: all recorded
LED instants are safe and the current phase is PED_GREEN. -/
def pedInvB (s : St) : Bool :=
  ledInvB s && (s.currentPhase == Phase.PHASE_PED_GREEN)

/-- The expected tick-log segment of one countdown from `r` down to 1 at
one refresh site. -/
def siteCountdown (site : Site) : Nat → List (Site × Nat)
  | 0 => []
  | r + 1 => (site, r + 1) :: siteCountdown site r

/-- An input stream with no button activity (all lines held HIGH). -/
def quietInput : Nat → Buttons := fun _ => ⟨HIGH, HIGH, HIGH⟩

/-- A small concrete state used to instantiate universally quantified
theorems: given phase, counts and latch, all other fields are at their
reset values. -/
def mkSt (p : Phase) (ns ew : Nat) (ped : Bool) : St :=
  { currentPhase := p
  , trafficCountNS := ns
  , trafficCountEW := ew
  , pedRequest := ped
  , lastNsBtnState := HIGH
  , lastEwBtnState := HIGH
  , lastPedBtnState := HIGH
  , leds := ⟨true, false, false, true, false, false, true, false⟩
  , pollIdx := 0
  , ticks := 0
  , phaseLog := []
  , ledLog := []
  , lcdLog := []
  , tickLog := [] }

/-! Preservation lemmas for one `readButtons` poll. -/

@[simp]
theorem readButtons_currentPhase (input : Nat → Buttons) (s : St) :
    (readButtons input s).currentPhase = s.currentPhase := by
  simp only [readButtons, pedButtonStep, ewButtonStep, nsButtonStep, pushLcd]
  split_ifs <;> rfl

@[simp]
theorem readButtons_leds (input : Nat → Buttons) (s : St) :
    (readButtons input s).leds = s.leds := by
  simp only [readButtons, pedButtonStep, ewButtonStep, nsButtonStep, pushLcd]
  split_ifs <;> rfl

@[simp]
theorem readButtons_ledLog (input : Nat → Buttons) (s : St) :
    (readButtons input s).ledLog = s.ledLog := by
  simp only [readButtons, pedButtonStep, ewButtonStep, nsButtonStep, pushLcd]
  split_ifs <;> rfl

@[simp]
theorem readButtons_phaseLog (input : Nat → Buttons) (s : St) :
    (readButtons input s).phaseLog = s.phaseLog := by
  simp only [readButtons, pedButtonStep, ewButtonStep, nsButtonStep, pushLcd]
  split_ifs <;> rfl

@[simp]
theorem readButtons_ticks (input : Nat → Buttons) (s : St) :
    (readButtons input s).ticks = s.ticks := by
  simp only [readButtons, pedButtonStep, ewButtonStep, nsButtonStep, pushLcd]
  split_ifs <;> rfl

@[simp]
theorem readButtons_tickLog (input : Nat → Buttons) (s : St) :
    (readButtons input s).tickLog = s.tickLog := by
  simp only [readButtons, pedButtonStep, ewButtonStep, nsButtonStep, pushLcd]
  split_ifs <;> rfl

theorem readButtons_countNS_le (input : Nat → Buttons) (s : St) :
    s.trafficCountNS ≤ (readButtons input s).trafficCountNS := by
  simp only [readButtons, pedButtonStep, ewButtonStep, nsButtonStep, pushLcd]
  split_ifs <;> simp

theorem readButtons_countEW_le (input : Nat → Buttons) (s : St) :
    s.trafficCountEW ≤ (readButtons input s).trafficCountEW := by
  simp only [readButtons, pedButtonStep, ewButtonStep, nsButtonStep, pushLcd]
  split_ifs <;> simp

theorem readButtons_pedRequest_true (input : Nat → Buttons) (s : St)
    (h : s.pedRequest = true) : (readButtons input s).pedRequest = true := by
  simp only [readButtons, pedButtonStep, ewButtonStep, nsButtonStep, pushLcd]
  split_ifs <;> simp [h]

/-! Frame lemmas for the elementary output operations. -/

@[simp]
theorem digitalWrite_tickLog (p : Pin) (v : Bool) (s : St) :
    (digitalWrite p v s).tickLog = s.tickLog := rfl

@[simp]
theorem digitalWrite_ticks (p : Pin) (v : Bool) (s : St) :
    (digitalWrite p v s).ticks = s.ticks := rfl

@[simp]
theorem digitalWrite_phaseLog (p : Pin) (v : Bool) (s : St) :
    (digitalWrite p v s).phaseLog = s.phaseLog := rfl

@[simp]
theorem digitalWrite_currentPhase (p : Pin) (v : Bool) (s : St) :
    (digitalWrite p v s).currentPhase = s.currentPhase := rfl

@[simp]
theorem digitalWrite_countNS (p : Pin) (v : Bool) (s : St) :
    (digitalWrite p v s).trafficCountNS = s.trafficCountNS := rfl

@[simp]
theorem digitalWrite_countEW (p : Pin) (v : Bool) (s : St) :
    (digitalWrite p v s).trafficCountEW = s.trafficCountEW := rfl

@[simp]
theorem digitalWrite_pedRequest (p : Pin) (v : Bool) (s : St) :
    (digitalWrite p v s).pedRequest = s.pedRequest := rfl

@[simp]
theorem setPhase_tickLog (p : Phase) (s : St) :
    (setPhase p s).tickLog = s.tickLog := rfl

@[simp]
theorem setPhase_ticks (p : Phase) (s : St) :
    (setPhase p s).ticks = s.ticks := rfl

@[simp]
theorem setPhase_leds (p : Phase) (s : St) :
    (setPhase p s).leds = s.leds := rfl

@[simp]
theorem setPhase_currentPhase (p : Phase) (s : St) :
    (setPhase p s).currentPhase = p := rfl

@[simp]
theorem setPhase_phaseLog (p : Phase) (s : St) :
    (setPhase p s).phaseLog = s.phaseLog ++ [p] := rfl

@[simp]
theorem setPhase_countNS (p : Phase) (s : St) :
    (setPhase p s).trafficCountNS = s.trafficCountNS := rfl

@[simp]
theorem setPhase_countEW (p : Phase) (s : St) :
    (setPhase p s).trafficCountEW = s.trafficCountEW := rfl

@[simp]
theorem setPhase_pedRequest (p : Phase) (s : St) :
    (setPhase p s).pedRequest = s.pedRequest := rfl

@[simp]
theorem pushLcd_projections (l1 l2 : String) (s : St) :
    (pushLcd l1 l2 s).currentPhase = s.currentPhase ∧
    (pushLcd l1 l2 s).leds = s.leds ∧
    (pushLcd l1 l2 s).ledLog = s.ledLog ∧
    (pushLcd l1 l2 s).phaseLog = s.phaseLog ∧
    (pushLcd l1 l2 s).tickLog = s.tickLog ∧
    (pushLcd l1 l2 s).ticks = s.ticks ∧
    (pushLcd l1 l2 s).trafficCountNS = s.trafficCountNS ∧
    (pushLcd l1 l2 s).trafficCountEW = s.trafficCountEW ∧
    (pushLcd l1 l2 s).pedRequest = s.pedRequest :=
  ⟨rfl, rfl, rfl, rfl, rfl, rfl, rfl, rfl, rfl⟩

@[simp]
theorem lcdRefresh_projections (site : Site) (r : Nat) (l1 l2 : String) (s : St) :
    (lcdRefresh site r l1 l2 s).currentPhase = s.currentPhase ∧
    (lcdRefresh site r l1 l2 s).leds = s.leds ∧
    (lcdRefresh site r l1 l2 s).ledLog = s.ledLog ∧
    (lcdRefresh site r l1 l2 s).phaseLog = s.phaseLog ∧
    (lcdRefresh site r l1 l2 s).ticks = s.ticks ∧
    (lcdRefresh site r l1 l2 s).trafficCountNS = s.trafficCountNS ∧
    (lcdRefresh site r l1 l2 s).trafficCountEW = s.trafficCountEW ∧
    (lcdRefresh site r l1 l2 s).pedRequest = s.pedRequest :=
  ⟨rfl, rfl, rfl, rfl, rfl, rfl, rfl, rfl⟩

@[simp]
theorem lcdRefresh_tickLog (site : Site) (r : Nat) (l1 l2 : String) (s : St) :
    (lcdRefresh site r l1 l2 s).tickLog = s.tickLog ++ [(site, r)] := rfl

/-! Frame lemmas for `pollLoop` and `waitOneSecondWithButtons`. -/

@[simp]
theorem pollLoop_currentPhase (input : Nat → Buttons) (n : Nat) (s : St) :
    (pollLoop input n s).currentPhase = s.currentPhase := by
  induction n generalizing s with
  | zero => rfl
  | succ n ih => rw [pollLoop, ih, readButtons_currentPhase]

@[simp]
theorem pollLoop_leds (input : Nat → Buttons) (n : Nat) (s : St) :
    (pollLoop input n s).leds = s.leds := by
  induction n generalizing s with
  | zero => rfl
  | succ n ih => rw [pollLoop, ih, readButtons_leds]

@[simp]
theorem pollLoop_ledLog (input : Nat → Buttons) (n : Nat) (s : St) :
    (pollLoop input n s).ledLog = s.ledLog := by
  induction n generalizing s with
  | zero => rfl
  | succ n ih => rw [pollLoop, ih, readButtons_ledLog]

@[simp]
theorem pollLoop_phaseLog (input : Nat → Buttons) (n : Nat) (s : St) :
    (pollLoop input n s).phaseLog = s.phaseLog := by
  induction n generalizing s with
  | zero => rfl
  | succ n ih => rw [pollLoop, ih, readButtons_phaseLog]

@[simp]
theorem pollLoop_ticks (input : Nat → Buttons) (n : Nat) (s : St) :
    (pollLoop input n s).ticks = s.ticks := by
  induction n generalizing s with
  | zero => rfl
  | succ n ih => rw [pollLoop, ih, readButtons_ticks]

@[simp]
theorem pollLoop_tickLog (input : Nat → Buttons) (n : Nat) (s : St) :
    (pollLoop input n s).tickLog = s.tickLog := by
  induction n generalizing s with
  | zero => rfl
  | succ n ih => rw [pollLoop, ih, readButtons_tickLog]

theorem pollLoop_countNS_le (input : Nat → Buttons) (n : Nat) (s : St) :
    s.trafficCountNS ≤ (pollLoop input n s).trafficCountNS := by
  induction n generalizing s with
  | zero => exact Nat.le_refl _
  | succ n ih =>
    rw [pollLoop]
    exact Nat.le_trans (readButtons_countNS_le input s) (ih _)

theorem pollLoop_countEW_le (input : Nat → Buttons) (n : Nat) (s : St) :
    s.trafficCountEW ≤ (pollLoop input n s).trafficCountEW := by
  induction n generalizing s with
  | zero => exact Nat.le_refl _
  | succ n ih =>
    rw [pollLoop]
    exact Nat.le_trans (readButtons_countEW_le input s) (ih _)

theorem pollLoop_pedRequest_true (input : Nat → Buttons) (n : Nat) (s : St)
    (h : s.pedRequest = true) : (pollLoop input n s).pedRequest = true := by
  induction n generalizing s with
  | zero => exact h
  | succ n ih =>
    rw [pollLoop]
    exact ih _ (readButtons_pedRequest_true input s h)

@[simp]
theorem wait_currentPhase (input : Nat → Buttons) (s : St) :
    (waitOneSecondWithButtons input s).currentPhase = s.currentPhase := by
  rw [waitOneSecondWithButtons]
  exact pollLoop_currentPhase input 50 s

@[simp]
theorem wait_leds (input : Nat → Buttons) (s : St) :
    (waitOneSecondWithButtons input s).leds = s.leds := by
  rw [waitOneSecondWithButtons]
  exact pollLoop_leds input 50 s

@[simp]
theorem wait_ledLog (input : Nat → Buttons) (s : St) :
    (waitOneSecondWithButtons input s).ledLog = s.ledLog := by
  rw [waitOneSecondWithButtons]
  exact pollLoop_ledLog input 50 s

@[simp]
theorem wait_phaseLog (input : Nat → Buttons) (s : St) :
    (waitOneSecondWithButtons input s).phaseLog = s.phaseLog := by
  rw [waitOneSecondWithButtons]
  exact pollLoop_phaseLog input 50 s

@[simp]
theorem wait_ticks (input : Nat → Buttons) (s : St) :
    (waitOneSecondWithButtons input s).ticks = s.ticks + 1 := by
  rw [waitOneSecondWithButtons]
  show (pollLoop input 50 s).ticks + 1 = s.ticks + 1
  rw [pollLoop_ticks]

@[simp]
theorem wait_tickLog (input : Nat → Buttons) (s : St) :
    (waitOneSecondWithButtons input s).tickLog = s.tickLog := by
  rw [waitOneSecondWithButtons]
  exact pollLoop_tickLog input 50 s

theorem wait_countNS_le (input : Nat → Buttons) (s : St) :
    s.trafficCountNS ≤ (waitOneSecondWithButtons input s).trafficCountNS := by
  rw [waitOneSecondWithButtons]
  exact pollLoop_countNS_le input 50 s

theorem wait_countEW_le (input : Nat → Buttons) (s : St) :
    s.trafficCountEW ≤ (waitOneSecondWithButtons input s).trafficCountEW := by
  rw [waitOneSecondWithButtons]
  exact pollLoop_countEW_le input 50 s

theorem wait_pedRequest_true (input : Nat → Buttons) (s : St)
    (h : s.pedRequest = true) :
    (waitOneSecondWithButtons input s).pedRequest = true := by
  rw [waitOneSecondWithButtons]
  exact pollLoop_pedRequest_true input 50 s h

/-! Frame lemmas for the composite LED setters. -/

@[simp]
theorem digitalWrite_lcdLog (p : Pin) (v : Bool) (s : St) :
    (digitalWrite p v s).lcdLog = s.lcdLog := rfl

@[simp]
theorem digitalWrite_leds (p : Pin) (v : Bool) (s : St) :
    (digitalWrite p v s).leds = s.leds.write p v := rfl

@[simp]
theorem digitalWrite_ledLog (p : Pin) (v : Bool) (s : St) :
    (digitalWrite p v s).ledLog = s.ledLog ++ [(s.currentPhase, s.leds.write p v)] := rfl

@[simp]
theorem setPhase_lcdLog (p : Phase) (s : St) :
    (setPhase p s).lcdLog = s.lcdLog := rfl

@[simp]
theorem setAllVehicleRed_frame (s : St) :
    (setAllVehicleRed s).currentPhase = s.currentPhase ∧
    (setAllVehicleRed s).phaseLog = s.phaseLog ∧
    (setAllVehicleRed s).tickLog = s.tickLog ∧
    (setAllVehicleRed s).ticks = s.ticks ∧
    (setAllVehicleRed s).trafficCountNS = s.trafficCountNS ∧
    (setAllVehicleRed s).trafficCountEW = s.trafficCountEW ∧
    (setAllVehicleRed s).pedRequest = s.pedRequest ∧
    (setAllVehicleRed s).lcdLog = s.lcdLog := by
  simp [setAllVehicleRed]

@[simp]
theorem setNsGreenState_frame (s : St) :
    (setNsGreenState s).currentPhase = s.currentPhase ∧
    (setNsGreenState s).phaseLog = s.phaseLog ∧
    (setNsGreenState s).tickLog = s.tickLog ∧
    (setNsGreenState s).ticks = s.ticks ∧
    (setNsGreenState s).trafficCountNS = s.trafficCountNS ∧
    (setNsGreenState s).trafficCountEW = s.trafficCountEW ∧
    (setNsGreenState s).pedRequest = s.pedRequest ∧
    (setNsGreenState s).lcdLog = s.lcdLog := by
  simp [setNsGreenState, setAllVehicleRed]

@[simp]
theorem setNsYellowState_frame (s : St) :
    (setNsYellowState s).currentPhase = s.currentPhase ∧
    (setNsYellowState s).phaseLog = s.phaseLog ∧
    (setNsYellowState s).tickLog = s.tickLog ∧
    (setNsYellowState s).ticks = s.ticks ∧
    (setNsYellowState s).trafficCountNS = s.trafficCountNS ∧
    (setNsYellowState s).trafficCountEW = s.trafficCountEW ∧
    (setNsYellowState s).pedRequest = s.pedRequest ∧
    (setNsYellowState s).lcdLog = s.lcdLog := by
  simp [setNsYellowState, setAllVehicleRed]

@[simp]
theorem setEwGreenState_frame (s : St) :
    (setEwGreenState s).currentPhase = s.currentPhase ∧
    (setEwGreenState s).phaseLog = s.phaseLog ∧
    (setEwGreenState s).tickLog = s.tickLog ∧
    (setEwGreenState s).ticks = s.ticks ∧
    (setEwGreenState s).trafficCountNS = s.trafficCountNS ∧
    (setEwGreenState s).trafficCountEW = s.trafficCountEW ∧
    (setEwGreenState s).pedRequest = s.pedRequest ∧
    (setEwGreenState s).lcdLog = s.lcdLog := by
  simp [setEwGreenState, setAllVehicleRed]

@[simp]
theorem setEwYellowState_frame (s : St) :
    (setEwYellowState s).currentPhase = s.currentPhase ∧
    (setEwYellowState s).phaseLog = s.phaseLog ∧
    (setEwYellowState s).tickLog = s.tickLog ∧
    (setEwYellowState s).ticks = s.ticks ∧
    (setEwYellowState s).trafficCountNS = s.trafficCountNS ∧
    (setEwYellowState s).trafficCountEW = s.trafficCountEW ∧
    (setEwYellowState s).pedRequest = s.pedRequest ∧
    (setEwYellowState s).lcdLog = s.lcdLog := by
  simp [setEwYellowState, setAllVehicleRed]

@[simp]
theorem setPedestrianGreenState_frame (s : St) :
    (setPedestrianGreenState s).currentPhase = s.currentPhase ∧
    (setPedestrianGreenState s).phaseLog = s.phaseLog ∧
    (setPedestrianGreenState s).tickLog = s.tickLog ∧
    (setPedestrianGreenState s).ticks = s.ticks ∧
    (setPedestrianGreenState s).trafficCountNS = s.trafficCountNS ∧
    (setPedestrianGreenState s).trafficCountEW = s.trafficCountEW ∧
    (setPedestrianGreenState s).pedRequest = s.pedRequest ∧
    (setPedestrianGreenState s).lcdLog = s.lcdLog := by
  simp [setPedestrianGreenState, setAllVehicleRed]

/-! Frame and progress lemmas for the five countdown loops. -/

@[simp]
theorem nsGreenLoop_currentPhase (input : Nat → Buttons) (b : Nat) (e : Int)
    (r : Nat) (s : St) :
    (nsGreenLoop input b e r s).currentPhase = s.currentPhase := by
  induction r generalizing s with
  | zero => rfl
  | succ r ih => rw [nsGreenLoop, ih]; simp [nsGreenLcd]

@[simp]
theorem nsGreenLoop_phaseLog (input : Nat → Buttons) (b : Nat) (e : Int)
    (r : Nat) (s : St) :
    (nsGreenLoop input b e r s).phaseLog = s.phaseLog := by
  induction r generalizing s with
  | zero => rfl
  | succ r ih => rw [nsGreenLoop, ih]; simp [nsGreenLcd]

@[simp]
theorem nsGreenLoop_leds (input : Nat → Buttons) (b : Nat) (e : Int)
    (r : Nat) (s : St) :
    (nsGreenLoop input b e r s).leds = s.leds := by
  induction r generalizing s with
  | zero => rfl
  | succ r ih => rw [nsGreenLoop, ih]; simp [nsGreenLcd]

@[simp]
theorem nsGreenLoop_ledLog (input : Nat → Buttons) (b : Nat) (e : Int)
    (r : Nat) (s : St) :
    (nsGreenLoop input b e r s).ledLog = s.ledLog := by
  induction r generalizing s with
  | zero => rfl
  | succ r ih => rw [nsGreenLoop, ih]; simp [nsGreenLcd]

@[simp]
theorem nsGreenLoop_ticks (input : Nat → Buttons) (b : Nat) (e : Int)
    (r : Nat) (s : St) :
    (nsGreenLoop input b e r s).ticks = s.ticks + r := by
  induction r generalizing s with
  | zero => rfl
  | succ r ih => rw [nsGreenLoop, ih]; simp [nsGreenLcd]; omega

@[simp]
theorem nsGreenLoop_tickLog (input : Nat → Buttons) (b : Nat) (e : Int)
    (r : Nat) (s : St) :
    (nsGreenLoop input b e r s).tickLog =
      s.tickLog ++ siteCountdown Site.nsGreenTick r := by
  induction r generalizing s with
  | zero => simp [nsGreenLoop, siteCountdown]
  | succ r ih => rw [nsGreenLoop, ih]; simp [nsGreenLcd, siteCountdown]

theorem nsGreenLoop_countEW_le (input : Nat → Buttons) (b : Nat) (e : Int)
    (r : Nat) (s : St) :
    s.trafficCountEW ≤ (nsGreenLoop input b e r s).trafficCountEW := by
  induction r generalizing s with
  | zero => exact Nat.le_refl _
  | succ r ih =>
    rw [nsGreenLoop]
    refine Nat.le_trans ?_ (ih _)
    have h1 : (nsGreenLcd b e (r + 1) s).trafficCountEW = s.trafficCountEW := by
      simp [nsGreenLcd]
    rw [← h1]
    exact wait_countEW_le input _

theorem nsGreenLoop_countNS_le (input : Nat → Buttons) (b : Nat) (e : Int)
    (r : Nat) (s : St) :
    s.trafficCountNS ≤ (nsGreenLoop input b e r s).trafficCountNS := by
  induction r generalizing s with
  | zero => exact Nat.le_refl _
  | succ r ih =>
    rw [nsGreenLoop]
    refine Nat.le_trans ?_ (ih _)
    have h1 : (nsGreenLcd b e (r + 1) s).trafficCountNS = s.trafficCountNS := by
      simp [nsGreenLcd]
    rw [← h1]
    exact wait_countNS_le input _

theorem nsGreenLoop_pedRequest_true (input : Nat → Buttons) (b : Nat) (e : Int)
    (r : Nat) (s : St) (h : s.pedRequest = true) :
    (nsGreenLoop input b e r s).pedRequest = true := by
  induction r generalizing s with
  | zero => exact h
  | succ r ih =>
    rw [nsGreenLoop]
    exact ih _ (wait_pedRequest_true input _ h)

/-! Lemmas for the remaining countdown loops. -/

@[simp]
theorem ewGreenLoop_currentPhase (input : Nat → Buttons) (b : Nat) (e : Int) (r : Nat) (s : St) :
    (ewGreenLoop input b e r s).currentPhase = s.currentPhase := by
  induction r generalizing s with
  | zero => rfl
  | succ r ih => rw [ewGreenLoop, ih]; simp [ewGreenLcd]

@[simp]
theorem ewGreenLoop_phaseLog (input : Nat → Buttons) (b : Nat) (e : Int) (r : Nat) (s : St) :
    (ewGreenLoop input b e r s).phaseLog = s.phaseLog := by
  induction r generalizing s with
  | zero => rfl
  | succ r ih => rw [ewGreenLoop, ih]; simp [ewGreenLcd]

@[simp]
theorem ewGreenLoop_ticks (input : Nat → Buttons) (b : Nat) (e : Int) (r : Nat) (s : St) :
    (ewGreenLoop input b e r s).ticks = s.ticks + r := by
  induction r generalizing s with
  | zero => rfl
  | succ r ih => rw [ewGreenLoop, ih]; simp [ewGreenLcd]; omega

@[simp]
theorem ewGreenLoop_tickLog (input : Nat → Buttons) (b : Nat) (e : Int) (r : Nat) (s : St) :
    (ewGreenLoop input b e r s).tickLog =
      s.tickLog ++ siteCountdown Site.ewGreenTick r := by
  induction r generalizing s with
  | zero => simp [ewGreenLoop, siteCountdown]
  | succ r ih => rw [ewGreenLoop, ih]; simp [ewGreenLcd, siteCountdown]

theorem ewGreenLoop_countNS_le (input : Nat → Buttons) (b : Nat) (e : Int) (r : Nat) (s : St) :
    s.trafficCountNS ≤ (ewGreenLoop input b e r s).trafficCountNS := by
  induction r generalizing s with
  | zero => exact Nat.le_refl _
  | succ r ih =>
    rw [ewGreenLoop]
    refine Nat.le_trans ?_ (ih _)
    have h1 : (ewGreenLcd b e (r + 1) s).trafficCountNS = s.trafficCountNS := by
      simp [ewGreenLcd]
    rw [← h1]
    exact wait_countNS_le input _

theorem ewGreenLoop_countEW_le (input : Nat → Buttons) (b : Nat) (e : Int) (r : Nat) (s : St) :
    s.trafficCountEW ≤ (ewGreenLoop input b e r s).trafficCountEW := by
  induction r generalizing s with
  | zero => exact Nat.le_refl _
  | succ r ih =>
    rw [ewGreenLoop]
    refine Nat.le_trans ?_ (ih _)
    have h1 : (ewGreenLcd b e (r + 1) s).trafficCountEW = s.trafficCountEW := by
      simp [ewGreenLcd]
    rw [← h1]
    exact wait_countEW_le input _

theorem ewGreenLoop_pedRequest_true (input : Nat → Buttons) (b : Nat) (e : Int) (r : Nat) (s : St)
    (h : s.pedRequest = true) :
    (ewGreenLoop input b e r s).pedRequest = true := by
  induction r generalizing s with
  | zero => exact h
  | succ r ih =>
    rw [ewGreenLoop]
    refine ih _ (wait_pedRequest_true input _ ?_)
    have h1 : (ewGreenLcd b e (r + 1) s).pedRequest = s.pedRequest := by
      simp [ewGreenLcd]
    rw [h1]
    exact h

@[simp]
theorem ewGreenLoop_leds (input : Nat → Buttons) (b : Nat) (e : Int)
    (r : Nat) (s : St) :
    (ewGreenLoop input b e r s).leds = s.leds := by
  induction r generalizing s with
  | zero => rfl
  | succ r ih => rw [ewGreenLoop, ih]; simp [ewGreenLcd]

@[simp]
theorem ewGreenLoop_ledLog (input : Nat → Buttons) (b : Nat) (e : Int)
    (r : Nat) (s : St) :
    (ewGreenLoop input b e r s).ledLog = s.ledLog := by
  induction r generalizing s with
  | zero => rfl
  | succ r ih => rw [ewGreenLoop, ih]; simp [ewGreenLcd]

@[simp]
theorem nsYellowLoop_currentPhase (input : Nat → Buttons) (r : Nat) (s : St) :
    (nsYellowLoop input r s).currentPhase = s.currentPhase := by
  induction r generalizing s with
  | zero => rfl
  | succ r ih => rw [nsYellowLoop, ih]; simp [nsYellowLcd]

@[simp]
theorem nsYellowLoop_phaseLog (input : Nat → Buttons) (r : Nat) (s : St) :
    (nsYellowLoop input r s).phaseLog = s.phaseLog := by
  induction r generalizing s with
  | zero => rfl
  | succ r ih => rw [nsYellowLoop, ih]; simp [nsYellowLcd]

@[simp]
theorem nsYellowLoop_ticks (input : Nat → Buttons) (r : Nat) (s : St) :
    (nsYellowLoop input r s).ticks = s.ticks + r := by
  induction r generalizing s with
  | zero => rfl
  | succ r ih => rw [nsYellowLoop, ih]; simp [nsYellowLcd]; omega

@[simp]
theorem nsYellowLoop_tickLog (input : Nat → Buttons) (r : Nat) (s : St) :
    (nsYellowLoop input r s).tickLog =
      s.tickLog ++ siteCountdown Site.nsYellowTick r := by
  induction r generalizing s with
  | zero => simp [nsYellowLoop, siteCountdown]
  | succ r ih => rw [nsYellowLoop, ih]; simp [nsYellowLcd, siteCountdown]

theorem nsYellowLoop_countNS_le (input : Nat → Buttons) (r : Nat) (s : St) :
    s.trafficCountNS ≤ (nsYellowLoop input r s).trafficCountNS := by
  induction r generalizing s with
  | zero => exact Nat.le_refl _
  | succ r ih =>
    rw [nsYellowLoop]
    refine Nat.le_trans ?_ (ih _)
    have h1 : (setNsYellowState (nsYellowLcd (r + 1) s)).trafficCountNS = s.trafficCountNS := by
      simp [nsYellowLcd]
    rw [← h1]
    exact wait_countNS_le input _

theorem nsYellowLoop_countEW_le (input : Nat → Buttons) (r : Nat) (s : St) :
    s.trafficCountEW ≤ (nsYellowLoop input r s).trafficCountEW := by
  induction r generalizing s with
  | zero => exact Nat.le_refl _
  | succ r ih =>
    rw [nsYellowLoop]
    refine Nat.le_trans ?_ (ih _)
    have h1 : (setNsYellowState (nsYellowLcd (r + 1) s)).trafficCountEW = s.trafficCountEW := by
      simp [nsYellowLcd]
    rw [← h1]
    exact wait_countEW_le input _

theorem nsYellowLoop_pedRequest_true (input : Nat → Buttons) (r : Nat) (s : St)
    (h : s.pedRequest = true) :
    (nsYellowLoop input r s).pedRequest = true := by
  induction r generalizing s with
  | zero => exact h
  | succ r ih =>
    rw [nsYellowLoop]
    refine ih _ (wait_pedRequest_true input _ ?_)
    have h1 : (setNsYellowState (nsYellowLcd (r + 1) s)).pedRequest = s.pedRequest := by
      simp [nsYellowLcd]
    rw [h1]
    exact h

@[simp]
theorem ewYellowLoop_currentPhase (input : Nat → Buttons) (r : Nat) (s : St) :
    (ewYellowLoop input r s).currentPhase = s.currentPhase := by
  induction r generalizing s with
  | zero => rfl
  | succ r ih => rw [ewYellowLoop, ih]; simp [ewYellowLcd]

@[simp]
theorem ewYellowLoop_phaseLog (input : Nat → Buttons) (r : Nat) (s : St) :
    (ewYellowLoop input r s).phaseLog = s.phaseLog := by
  induction r generalizing s with
  | zero => rfl
  | succ r ih => rw [ewYellowLoop, ih]; simp [ewYellowLcd]

@[simp]
theorem ewYellowLoop_ticks (input : Nat → Buttons) (r : Nat) (s : St) :
    (ewYellowLoop input r s).ticks = s.ticks + r := by
  induction r generalizing s with
  | zero => rfl
  | succ r ih => rw [ewYellowLoop, ih]; simp [ewYellowLcd]; omega

@[simp]
theorem ewYellowLoop_tickLog (input : Nat → Buttons) (r : Nat) (s : St) :
    (ewYellowLoop input r s).tickLog =
      s.tickLog ++ siteCountdown Site.ewYellowTick r := by
  induction r generalizing s with
  | zero => simp [ewYellowLoop, siteCountdown]
  | succ r ih => rw [ewYellowLoop, ih]; simp [ewYellowLcd, siteCountdown]

theorem ewYellowLoop_countNS_le (input : Nat → Buttons) (r : Nat) (s : St) :
    s.trafficCountNS ≤ (ewYellowLoop input r s).trafficCountNS := by
  induction r generalizing s with
  | zero => exact Nat.le_refl _
  | succ r ih =>
    rw [ewYellowLoop]
    refine Nat.le_trans ?_ (ih _)
    have h1 : (setEwYellowState (ewYellowLcd (r + 1) s)).trafficCountNS = s.trafficCountNS := by
      simp [ewYellowLcd]
    rw [← h1]
    exact wait_countNS_le input _

theorem ewYellowLoop_countEW_le (input : Nat → Buttons) (r : Nat) (s : St) :
    s.trafficCountEW ≤ (ewYellowLoop input r s).trafficCountEW := by
  induction r generalizing s with
  | zero => exact Nat.le_refl _
  | succ r ih =>
    rw [ewYellowLoop]
    refine Nat.le_trans ?_ (ih _)
    have h1 : (setEwYellowState (ewYellowLcd (r + 1) s)).trafficCountEW = s.trafficCountEW := by
      simp [ewYellowLcd]
    rw [← h1]
    exact wait_countEW_le input _

theorem ewYellowLoop_pedRequest_true (input : Nat → Buttons) (r : Nat) (s : St)
    (h : s.pedRequest = true) :
    (ewYellowLoop input r s).pedRequest = true := by
  induction r generalizing s with
  | zero => exact h
  | succ r ih =>
    rw [ewYellowLoop]
    refine ih _ (wait_pedRequest_true input _ ?_)
    have h1 : (setEwYellowState (ewYellowLcd (r + 1) s)).pedRequest = s.pedRequest := by
      simp [ewYellowLcd]
    rw [h1]
    exact h

@[simp]
theorem pedLoop_currentPhase (input : Nat → Buttons) (r : Nat) (s : St) :
    (pedLoop input r s).currentPhase = s.currentPhase := by
  induction r generalizing s with
  | zero => rfl
  | succ r ih => rw [pedLoop, ih]; simp [pedLcd]

@[simp]
theorem pedLoop_phaseLog (input : Nat → Buttons) (r : Nat) (s : St) :
    (pedLoop input r s).phaseLog = s.phaseLog := by
  induction r generalizing s with
  | zero => rfl
  | succ r ih => rw [pedLoop, ih]; simp [pedLcd]

@[simp]
theorem pedLoop_ticks (input : Nat → Buttons) (r : Nat) (s : St) :
    (pedLoop input r s).ticks = s.ticks + r := by
  induction r generalizing s with
  | zero => rfl
  | succ r ih => rw [pedLoop, ih]; simp [pedLcd]; omega

@[simp]
theorem pedLoop_tickLog (input : Nat → Buttons) (r : Nat) (s : St) :
    (pedLoop input r s).tickLog =
      s.tickLog ++ siteCountdown Site.pedTick r := by
  induction r generalizing s with
  | zero => simp [pedLoop, siteCountdown]
  | succ r ih => rw [pedLoop, ih]; simp [pedLcd, siteCountdown]

theorem pedLoop_countNS_le (input : Nat → Buttons) (r : Nat) (s : St) :
    s.trafficCountNS ≤ (pedLoop input r s).trafficCountNS := by
  induction r generalizing s with
  | zero => exact Nat.le_refl _
  | succ r ih =>
    rw [pedLoop]
    refine Nat.le_trans ?_ (ih _)
    have h1 : (pedLcd (r + 1) s).trafficCountNS = s.trafficCountNS := by
      simp [pedLcd]
    rw [← h1]
    exact wait_countNS_le input _

theorem pedLoop_countEW_le (input : Nat → Buttons) (r : Nat) (s : St) :
    s.trafficCountEW ≤ (pedLoop input r s).trafficCountEW := by
  induction r generalizing s with
  | zero => exact Nat.le_refl _
  | succ r ih =>
    rw [pedLoop]
    refine Nat.le_trans ?_ (ih _)
    have h1 : (pedLcd (r + 1) s).trafficCountEW = s.trafficCountEW := by
      simp [pedLcd]
    rw [← h1]
    exact wait_countEW_le input _

theorem pedLoop_pedRequest_true (input : Nat → Buttons) (r : Nat) (s : St)
    (h : s.pedRequest = true) :
    (pedLoop input r s).pedRequest = true := by
  induction r generalizing s with
  | zero => exact h
  | succ r ih =>
    rw [pedLoop]
    refine ih _ (wait_pedRequest_true input _ ?_)
    have h1 : (pedLcd (r + 1) s).pedRequest = s.pedRequest := by
      simp [pedLcd]
    rw [h1]
    exact h

@[simp]
theorem pedLoop_leds (input : Nat → Buttons) (r : Nat) (s : St) :
    (pedLoop input r s).leds = s.leds := by
  induction r generalizing s with
  | zero => rfl
  | succ r ih => rw [pedLoop, ih]; simp [pedLcd]

@[simp]
theorem pedLoop_ledLog (input : Nat → Buttons) (r : Nat) (s : St) :
    (pedLoop input r s).ledLog = s.ledLog := by
  induction r generalizing s with
  | zero => rfl
  | succ r ih => rw [pedLoop, ih]; simp [pedLcd]

/-! Phase-level lemmas. -/

@[simp]
theorem computeNsGreenSeconds_setPhase (p : Phase) (s : St) :
    computeNsGreenSeconds (setPhase p s) = computeNsGreenSeconds s := by
  simp [computeNsGreenSeconds]

@[simp]
theorem computeEwGreenSeconds_setPhase (p : Phase) (s : St) :
    computeEwGreenSeconds (setPhase p s) = computeEwGreenSeconds s := by
  simp [computeEwGreenSeconds]

@[simp]
theorem phaseNsGreen_phaseLog (input : Nat → Buttons) (s : St) :
    (phaseNsGreen input s).phaseLog = s.phaseLog ++ [PHASE_NS_GREEN] := by
  simp [phaseNsGreen]

@[simp]
theorem phaseNsGreen_countNS (input : Nat → Buttons) (s : St) :
    (phaseNsGreen input s).trafficCountNS = 0 := by
  simp [phaseNsGreen]

@[simp]
theorem phaseNsGreen_ticks (input : Nat → Buttons) (s : St) :
    (phaseNsGreen input s).ticks = s.ticks + computeNsGreenSeconds s := by
  simp [phaseNsGreen]

@[simp]
theorem phaseNsGreen_tickLog (input : Nat → Buttons) (s : St) :
    (phaseNsGreen input s).tickLog =
      s.tickLog ++ siteCountdown Site.nsGreenTick (computeNsGreenSeconds s) := by
  simp [phaseNsGreen]

theorem phaseNsGreen_countEW_le (input : Nat → Buttons) (s : St) :
    s.trafficCountEW ≤ (phaseNsGreen input s).trafficCountEW := by
  show s.trafficCountEW ≤ (phaseNsGreen input s).trafficCountEW
  rw [phaseNsGreen]
  have h1 := nsGreenLoop_countEW_le input BASE_GREEN_SEC
    (clampedExtra (computeNsGreenSeconds (setPhase PHASE_NS_GREEN s)))
    (computeNsGreenSeconds (setPhase PHASE_NS_GREEN s))
    (setNsGreenState (setPhase PHASE_NS_GREEN s))
  simpa using h1

theorem phaseNsGreen_pedRequest_true (input : Nat → Buttons) (s : St)
    (h : s.pedRequest = true) : (phaseNsGreen input s).pedRequest = true := by
  rw [phaseNsGreen]
  have h1 := nsGreenLoop_pedRequest_true input BASE_GREEN_SEC
    (clampedExtra (computeNsGreenSeconds (setPhase PHASE_NS_GREEN s)))
    (computeNsGreenSeconds (setPhase PHASE_NS_GREEN s))
    (setNsGreenState (setPhase PHASE_NS_GREEN s)) (by simp [h])
  simpa using h1

@[simp]
theorem phaseEwGreen_phaseLog (input : Nat → Buttons) (s : St) :
    (phaseEwGreen input s).phaseLog = s.phaseLog ++ [PHASE_EW_GREEN] := by
  simp [phaseEwGreen]

@[simp]
theorem phaseEwGreen_countEW (input : Nat → Buttons) (s : St) :
    (phaseEwGreen input s).trafficCountEW = 0 := by
  simp [phaseEwGreen]

@[simp]
theorem phaseEwGreen_ticks (input : Nat → Buttons) (s : St) :
    (phaseEwGreen input s).ticks = s.ticks + computeEwGreenSeconds s := by
  simp [phaseEwGreen]

@[simp]
theorem phaseEwGreen_tickLog (input : Nat → Buttons) (s : St) :
    (phaseEwGreen input s).tickLog =
      s.tickLog ++ siteCountdown Site.ewGreenTick (computeEwGreenSeconds s) := by
  simp [phaseEwGreen]

theorem phaseEwGreen_countNS_le (input : Nat → Buttons) (s : St) :
    s.trafficCountNS ≤ (phaseEwGreen input s).trafficCountNS := by
  rw [phaseEwGreen]
  have h1 := ewGreenLoop_countNS_le input BASE_GREEN_SEC
    (clampedExtra (computeEwGreenSeconds (setPhase PHASE_EW_GREEN s)))
    (computeEwGreenSeconds (setPhase PHASE_EW_GREEN s))
    (setEwGreenState (setPhase PHASE_EW_GREEN s))
  simpa using h1

theorem phaseEwGreen_pedRequest_true (input : Nat → Buttons) (s : St)
    (h : s.pedRequest = true) : (phaseEwGreen input s).pedRequest = true := by
  rw [phaseEwGreen]
  have h1 := ewGreenLoop_pedRequest_true input BASE_GREEN_SEC
    (clampedExtra (computeEwGreenSeconds (setPhase PHASE_EW_GREEN s)))
    (computeEwGreenSeconds (setPhase PHASE_EW_GREEN s))
    (setEwGreenState (setPhase PHASE_EW_GREEN s)) (by simp [h])
  simpa using h1

@[simp]
theorem phaseNsYellow_phaseLog (input : Nat → Buttons) (s : St) :
    (phaseNsYellow input s).phaseLog = s.phaseLog ++ [PHASE_NS_YELLOW] := by
  simp [phaseNsYellow]

@[simp]
theorem phaseNsYellow_ticks (input : Nat → Buttons) (s : St) :
    (phaseNsYellow input s).ticks = s.ticks + YELLOW_TIME_SEC := by
  simp [phaseNsYellow]

@[simp]
theorem phaseNsYellow_tickLog (input : Nat → Buttons) (s : St) :
    (phaseNsYellow input s).tickLog =
      s.tickLog ++ siteCountdown Site.nsYellowTick YELLOW_TIME_SEC := by
  simp [phaseNsYellow]

theorem phaseNsYellow_countNS_le (input : Nat → Buttons) (s : St) :
    s.trafficCountNS ≤ (phaseNsYellow input s).trafficCountNS := by
  rw [phaseNsYellow]
  have h1 := nsYellowLoop_countNS_le input YELLOW_TIME_SEC
    (setPhase PHASE_NS_YELLOW s)
  simpa using h1

theorem phaseNsYellow_countEW_le (input : Nat → Buttons) (s : St) :
    s.trafficCountEW ≤ (phaseNsYellow input s).trafficCountEW := by
  rw [phaseNsYellow]
  have h1 := nsYellowLoop_countEW_le input YELLOW_TIME_SEC
    (setPhase PHASE_NS_YELLOW s)
  simpa using h1

theorem phaseNsYellow_pedRequest_true (input : Nat → Buttons) (s : St)
    (h : s.pedRequest = true) : (phaseNsYellow input s).pedRequest = true := by
  rw [phaseNsYellow]
  exact nsYellowLoop_pedRequest_true input YELLOW_TIME_SEC _ (by simp [h])

@[simp]
theorem phaseEwYellow_phaseLog (input : Nat → Buttons) (s : St) :
    (phaseEwYellow input s).phaseLog = s.phaseLog ++ [PHASE_EW_YELLOW] := by
  simp [phaseEwYellow]

@[simp]
theorem phaseEwYellow_ticks (input : Nat → Buttons) (s : St) :
    (phaseEwYellow input s).ticks = s.ticks + YELLOW_TIME_SEC := by
  simp [phaseEwYellow]

@[simp]
theorem phaseEwYellow_tickLog (input : Nat → Buttons) (s : St) :
    (phaseEwYellow input s).tickLog =
      s.tickLog ++ siteCountdown Site.ewYellowTick YELLOW_TIME_SEC := by
  simp [phaseEwYellow]

theorem phaseEwYellow_countNS_le (input : Nat → Buttons) (s : St) :
    s.trafficCountNS ≤ (phaseEwYellow input s).trafficCountNS := by
  rw [phaseEwYellow]
  have h1 := ewYellowLoop_countNS_le input YELLOW_TIME_SEC
    (setPhase PHASE_EW_YELLOW s)
  simpa using h1

theorem phaseEwYellow_countEW_le (input : Nat → Buttons) (s : St) :
    s.trafficCountEW ≤ (phaseEwYellow input s).trafficCountEW := by
  rw [phaseEwYellow]
  have h1 := ewYellowLoop_countEW_le input YELLOW_TIME_SEC
    (setPhase PHASE_EW_YELLOW s)
  simpa using h1

theorem phaseEwYellow_pedRequest_true (input : Nat → Buttons) (s : St)
    (h : s.pedRequest = true) : (phaseEwYellow input s).pedRequest = true := by
  rw [phaseEwYellow]
  exact ewYellowLoop_pedRequest_true input YELLOW_TIME_SEC _ (by simp [h])

/-! Lemmas for the pedestrian phase. -/

theorem phasePed_skip (input : Nat → Buttons) (s : St)
    (h : s.pedRequest = false) : phasePedestrianIfRequested input s = s := by
  rw [phasePedestrianIfRequested]
  simp [h]

theorem phasePed_served_phaseLog (input : Nat → Buttons) (s : St)
    (h : s.pedRequest = true) :
    (phasePedestrianIfRequested input s).phaseLog =
      s.phaseLog ++ [PHASE_PED_GREEN] := by
  rw [phasePedestrianIfRequested]
  simp [h]

theorem phasePed_served_pedRequest (input : Nat → Buttons) (s : St)
    (h : s.pedRequest = true) :
    (phasePedestrianIfRequested input s).pedRequest = false := by
  rw [phasePedestrianIfRequested]
  simp [h]

theorem phasePed_served_ticks (input : Nat → Buttons) (s : St)
    (h : s.pedRequest = true) :
    (phasePedestrianIfRequested input s).ticks = s.ticks + PED_TIME_SEC := by
  rw [phasePedestrianIfRequested]
  simp [h]

theorem phasePed_served_tickLog (input : Nat → Buttons) (s : St)
    (h : s.pedRequest = true) :
    (phasePedestrianIfRequested input s).tickLog =
      s.tickLog ++ siteCountdown Site.pedTick PED_TIME_SEC := by
  rw [phasePedestrianIfRequested]
  simp [h]

theorem phasePed_countNS_le (input : Nat → Buttons) (s : St) :
    s.trafficCountNS ≤ (phasePedestrianIfRequested input s).trafficCountNS := by
  rw [phasePedestrianIfRequested]
  by_cases h : s.pedRequest = false
  · simp [h]
  · simp only [h, if_neg]
    have h1 := pedLoop_countNS_le input PED_TIME_SEC
      (setPedestrianGreenState (setPhase PHASE_PED_GREEN s))
    simp at h1
    simpa using h1

theorem phasePed_countEW_le (input : Nat → Buttons) (s : St) :
    s.trafficCountEW ≤ (phasePedestrianIfRequested input s).trafficCountEW := by
  rw [phasePedestrianIfRequested]
  by_cases h : s.pedRequest = false
  · simp [h]
  · simp only [h, if_neg]
    have h1 := pedLoop_countEW_le input PED_TIME_SEC
      (setPedestrianGreenState (setPhase PHASE_PED_GREEN s))
    simp at h1
    simpa using h1

/-! Claim theorems. -/

/-- Claim C1: for every non-negative vehicle count, the green-time policy
(`computeNsGreenSeconds` applied to `trafficCountNS`,
`computeEwGreenSeconds` applied to `trafficCountEW`) returns exactly 10
seconds when the count is below 5, 20 when it is 5 to 9, 30 when it is 10
to 14, and 40 when it is at least 15, and is monotonic non-decreasing in
the count. -/
theorem greenTimePolicy_values_monotone (s t : St)
    (hns : s.trafficCountNS ≤ t.trafficCountNS)
    (hew : s.trafficCountEW ≤ t.trafficCountEW) :
    (computeNsGreenSeconds s =
      if s.trafficCountNS < 5 then 10
      else if s.trafficCountNS < 10 then 20
      else if s.trafficCountNS < 15 then 30
      else 40) ∧
    (computeEwGreenSeconds s =
      if s.trafficCountEW < 5 then 10
      else if s.trafficCountEW < 10 then 20
      else if s.trafficCountEW < 15 then 30
      else 40) ∧
    computeNsGreenSeconds s ≤ computeNsGreenSeconds t ∧
    computeEwGreenSeconds s ≤ computeEwGreenSeconds t := by
  refine ⟨?_, ?_, ?_, ?_⟩ <;>
    simp only [computeNsGreenSeconds, computeEwGreenSeconds, BASE_GREEN_SEC] <;>
    split_ifs <;> omega

/-- Witness for C1 at counts 7 and 16 against 12 and 20. -/
theorem greenTimePolicy_values_monotone_witness :
    computeNsGreenSeconds (mkSt Phase.PHASE_NS_GREEN 7 16 false) ≤
      computeNsGreenSeconds (mkSt Phase.PHASE_NS_GREEN 12 20 false) :=
  (greenTimePolicy_values_monotone
    (mkSt Phase.PHASE_NS_GREEN 7 16 false)
    (mkSt Phase.PHASE_NS_GREEN 12 20 false)
    (by decide) (by decide)).2.2.1

/-- Claim C10: the green-time policy never returns less than
`BASE_GREEN_SEC` (10), therefore `extraSecs = totalSecs - baseSecs`
computed at vehicle-green entry is never negative and the clamping branch
`if (extraSecs < 0) extraSecs = 0` is unreachable (the clamped value
always equals the raw difference). -/
theorem extraSecs_clamp_unreachable (s : St) :
    BASE_GREEN_SEC ≤ computeNsGreenSeconds s ∧
    BASE_GREEN_SEC ≤ computeEwGreenSeconds s ∧
    clampedExtra (computeNsGreenSeconds s) =
      (computeNsGreenSeconds s : Int) - (BASE_GREEN_SEC : Int) ∧
    clampedExtra (computeEwGreenSeconds s) =
      (computeEwGreenSeconds s : Int) - (BASE_GREEN_SEC : Int) ∧
    0 ≤ clampedExtra (computeNsGreenSeconds s) ∧
    0 ≤ clampedExtra (computeEwGreenSeconds s) := by
  refine ⟨?_, ?_, ?_, ?_, ?_, ?_⟩ <;>
    simp only [clampedExtra, computeNsGreenSeconds, computeEwGreenSeconds,
      BASE_GREEN_SEC] <;>
    split_ifs <;> omega

/-- Claim C2: on one `readButtons` poll, an approach's pending count is
incremented by exactly one precisely when the sampled level shows a
HIGH-to-LOW press edge and the approach's derived stopped predicate
(`isNsRed` / `isEwRed`) holds at that instant; in every other case the
count is unchanged.  The stopped predicates hold exactly when the current
phase is neither that approach's green nor its yellow. -/
theorem readButtons_count_accept_iff (input : Nat → Buttons) (s : St) :
    ((readButtons input s).trafficCountNS =
      if (input s.pollIdx).ns = LOW ∧ s.lastNsBtnState = HIGH ∧
          isNsRed s.currentPhase = true
      then s.trafficCountNS + 1 else s.trafficCountNS) ∧
    ((readButtons input s).trafficCountEW =
      if (input s.pollIdx).ew = LOW ∧ s.lastEwBtnState = HIGH ∧
          isEwRed s.currentPhase = true
      then s.trafficCountEW + 1 else s.trafficCountEW) ∧
    (∀ p : Phase, isNsRed p = true ↔
      (p ≠ Phase.PHASE_NS_GREEN ∧ p ≠ Phase.PHASE_NS_YELLOW)) ∧
    (∀ p : Phase, isEwRed p = true ↔
      (p ≠ Phase.PHASE_EW_GREEN ∧ p ≠ Phase.PHASE_EW_YELLOW)) := by
  refine ⟨?_, ?_, ?_, ?_⟩
  · simp only [readButtons, pedButtonStep, ewButtonStep, nsButtonStep, pushLcd]
    split_ifs <;> simp_all
  · simp only [readButtons, pedButtonStep, ewButtonStep, nsButtonStep, pushLcd]
    split_ifs <;> simp_all
  · intro p
    cases p <;> decide
  · intro p
    cases p <;> decide

/-- Claim C9: every yellow phase lasts exactly 3 one-second ticks and
every served pedestrian phase lasts exactly 8 one-second ticks, the
countdown display running from the fixed duration down to 1 inclusive,
one tick per second (the tick-log records one refresh per elapsed
second, with remaining values descending to 1). -/
theorem yellow_ped_durations (input : Nat → Buttons) (s : St)
    (h : s.pedRequest = true) :
    (phaseNsYellow input s).ticks = s.ticks + 3 ∧
    (phaseEwYellow input s).ticks = s.ticks + 3 ∧
    (phaseNsYellow input s).tickLog = s.tickLog ++
      [(Site.nsYellowTick, 3), (Site.nsYellowTick, 2), (Site.nsYellowTick, 1)] ∧
    (phaseEwYellow input s).tickLog = s.tickLog ++
      [(Site.ewYellowTick, 3), (Site.ewYellowTick, 2), (Site.ewYellowTick, 1)] ∧
    (phasePedestrianIfRequested input s).ticks = s.ticks + 8 ∧
    (phasePedestrianIfRequested input s).tickLog = s.tickLog ++
      [(Site.pedTick, 8), (Site.pedTick, 7), (Site.pedTick, 6),
       (Site.pedTick, 5), (Site.pedTick, 4), (Site.pedTick, 3),
       (Site.pedTick, 2), (Site.pedTick, 1)] := by
  refine ⟨?_, ?_, ?_, ?_, ?_, ?_⟩
  · simp [YELLOW_TIME_SEC]
  · simp [YELLOW_TIME_SEC]
  · simp [YELLOW_TIME_SEC, siteCountdown]
  · simp [YELLOW_TIME_SEC, siteCountdown]
  · rw [phasePed_served_ticks input s h, PED_TIME_SEC]
  · rw [phasePed_served_tickLog input s h]
    simp [PED_TIME_SEC, siteCountdown]

/-- Witness for C9 with the latch set, at a concrete state. -/
theorem yellow_ped_durations_witness :
    (phaseNsYellow quietInput (mkSt Phase.PHASE_NS_GREEN 0 0 true)).ticks =
      (mkSt Phase.PHASE_NS_GREEN 0 0 true).ticks + 3 :=
  (yellow_ped_durations quietInput (mkSt Phase.PHASE_NS_GREEN 0 0 true)
    (by decide)).1

/-- Claim C5: an approach's pending count is reset to 0 exactly at the
completion of that approach's own green phase and nowhere else: the green
countdown loops themselves never decrease a count, and yellow phases, the
other approach's green, and the pedestrian phase never decrease either
count (counts can only grow there, by accepted button-edge increments). -/
theorem pendingCount_reset_policy (input : Nat → Buttons) (s : St) :
    (phaseNsGreen input s).trafficCountNS = 0 ∧
    (phaseEwGreen input s).trafficCountEW = 0 ∧
    (∀ (b : Nat) (e : Int) (r : Nat),
      s.trafficCountNS ≤ (nsGreenLoop input b e r s).trafficCountNS) ∧
    (∀ (b : Nat) (e : Int) (r : Nat),
      s.trafficCountEW ≤ (ewGreenLoop input b e r s).trafficCountEW) ∧
    s.trafficCountEW ≤ (phaseNsGreen input s).trafficCountEW ∧
    s.trafficCountNS ≤ (phaseEwGreen input s).trafficCountNS ∧
    s.trafficCountNS ≤ (phaseNsYellow input s).trafficCountNS ∧
    s.trafficCountEW ≤ (phaseNsYellow input s).trafficCountEW ∧
    s.trafficCountNS ≤ (phaseEwYellow input s).trafficCountNS ∧
    s.trafficCountEW ≤ (phaseEwYellow input s).trafficCountEW ∧
    s.trafficCountNS ≤ (phasePedestrianIfRequested input s).trafficCountNS ∧
    s.trafficCountEW ≤ (phasePedestrianIfRequested input s).trafficCountEW :=
  ⟨phaseNsGreen_countNS input s,
   phaseEwGreen_countEW input s,
   fun b e r => nsGreenLoop_countNS_le input b e r s,
   fun b e r => ewGreenLoop_countEW_le input b e r s,
   phaseNsGreen_countEW_le input s,
   phaseEwGreen_countNS_le input s,
   phaseNsYellow_countNS_le input s,
   phaseNsYellow_countEW_le input s,
   phaseEwYellow_countNS_le input s,
   phaseEwYellow_countEW_le input s,
   phasePed_countNS_le input s,
   phasePed_countEW_le input s⟩

/-- Claim C7: the pedestrian request latch is idempotent: with the latch
already true, any number of further polls (each of which may carry a
pedestrian press edge) leaves the latch true, and the pedestrian check
then runs exactly one PED_GREEN phase for the latched request and clears
the latch. -/
theorem pedLatch_idempotent (input input2 : Nat → Buttons) (n : Nat) (s : St)
    (h : s.pedRequest = true) :
    (pollLoop input n s).pedRequest = true ∧
    (phasePedestrianIfRequested input2 (pollLoop input n s)).phaseLog =
      (pollLoop input n s).phaseLog ++ [Phase.PHASE_PED_GREEN] ∧
    (phasePedestrianIfRequested input2 (pollLoop input n s)).pedRequest =
      false := by
  have h1 := pollLoop_pedRequest_true input n s h
  exact ⟨h1, phasePed_served_phaseLog input2 _ h1,
    phasePed_served_pedRequest input2 _ h1⟩

/-- Witness for C7 at a concrete state with the latch set. -/
theorem pedLatch_idempotent_witness :
    (pollLoop quietInput 5 (mkSt Phase.PHASE_NS_GREEN 0 0 true)).pedRequest =
      true :=
  (pedLatch_idempotent quietInput quietInput 5
    (mkSt Phase.PHASE_NS_GREEN 0 0 true) (by decide)).1

/-- Claim C6: each latched request is served by exactly one PED_GREEN
phase: the service appends exactly one PED_GREEN entry and clears the
latch (for every input stream, including streams with pedestrian press
edges during the running pedestrian phase), an immediately repeated check
is a no-op, a check with the latch clear is a no-op, and no latched
request is lost across the vehicle phases. -/
theorem pedRequest_served_exactly_once (input input2 : Nat → Buttons)
    (s : St) (h : s.pedRequest = true) :
    (phasePedestrianIfRequested input s).phaseLog =
      s.phaseLog ++ [Phase.PHASE_PED_GREEN] ∧
    (phasePedestrianIfRequested input s).pedRequest = false ∧
    phasePedestrianIfRequested input2 (phasePedestrianIfRequested input s) =
      phasePedestrianIfRequested input s ∧
    (∀ t : St, t.pedRequest = false →
      phasePedestrianIfRequested input t = t) ∧
    (phaseNsGreen input s).pedRequest = true ∧
    (phaseNsYellow input s).pedRequest = true ∧
    (phaseEwGreen input s).pedRequest = true ∧
    (phaseEwYellow input s).pedRequest = true := by
  have h2 := phasePed_served_pedRequest input s h
  exact ⟨phasePed_served_phaseLog input s h, h2,
    phasePed_skip input2 _ h2,
    fun t ht => phasePed_skip input t ht,
    phaseNsGreen_pedRequest_true input s h,
    phaseNsYellow_pedRequest_true input s h,
    phaseEwGreen_pedRequest_true input s h,
    phaseEwYellow_pedRequest_true input s h⟩

/-- Witness for C6 at a concrete state with the latch set. -/
theorem pedRequest_served_exactly_once_witness :
    (phasePedestrianIfRequested quietInput
      (mkSt Phase.PHASE_EW_YELLOW 0 0 true)).pedRequest = false :=
  (pedRequest_served_exactly_once quietInput quietInput
    (mkSt Phase.PHASE_EW_YELLOW 0 0 true) (by decide)).2.1

/-! Latch behavior under the quiet input stream (no button activity),
used to instantiate the insertion-point theorem concretely. -/

theorem ne_true_of_eq_false {b : Bool} (h : b = false) : ¬(b = true) := by
  simp [h]

theorem pedRequest_setCountEW (s : St) (n : Nat) :
    ({ s with trafficCountEW := n } : St).pedRequest = s.pedRequest := rfl

theorem readButtons_pedRequest_quiet (s : St) :
    (readButtons quietInput s).pedRequest = s.pedRequest := by
  simp [readButtons, pedButtonStep, ewButtonStep, nsButtonStep, pushLcd,
    quietInput, HIGH, LOW]

theorem pollLoop_pedRequest_quiet (n : Nat) (s : St) :
    (pollLoop quietInput n s).pedRequest = s.pedRequest := by
  induction n generalizing s with
  | zero => rfl
  | succ n ih => rw [pollLoop, ih, readButtons_pedRequest_quiet]

theorem wait_def_pedRequest (input : Nat → Buttons) (s : St) :
    (waitOneSecondWithButtons input s).pedRequest =
      (pollLoop input 50 s).pedRequest := rfl

theorem wait_pedRequest_quiet (s : St) :
    (waitOneSecondWithButtons quietInput s).pedRequest = s.pedRequest := by
  rw [wait_def_pedRequest, pollLoop_pedRequest_quiet]

theorem ewGreenLoop_pedRequest_quiet (b : Nat) (e : Int) (r : Nat) (s : St) :
    (ewGreenLoop quietInput b e r s).pedRequest = s.pedRequest := by
  induction r generalizing s with
  | zero => rfl
  | succ r ih => rw [ewGreenLoop, ih, wait_pedRequest_quiet]; simp [ewGreenLcd]

theorem ewYellowLoop_pedRequest_quiet (r : Nat) (s : St) :
    (ewYellowLoop quietInput r s).pedRequest = s.pedRequest := by
  induction r generalizing s with
  | zero => rfl
  | succ r ih => rw [ewYellowLoop, ih, wait_pedRequest_quiet]; simp [ewYellowLcd]

theorem phaseEwGreen_pedRequest_quiet (s : St) :
    (phaseEwGreen quietInput s).pedRequest = s.pedRequest := by
  simp only [phaseEwGreen, pedRequest_setCountEW]
  rw [ewGreenLoop_pedRequest_quiet]
  simp

theorem phaseEwYellow_pedRequest_quiet (s : St) :
    (phaseEwYellow quietInput s).pedRequest = s.pedRequest := by
  rw [phaseEwYellow, ewYellowLoop_pedRequest_quiet]
  simp

theorem phasePed_pedRequest_always_false (input : Nat → Buttons) (s : St) :
    (phasePedestrianIfRequested input s).pedRequest = false := by
  by_cases h : s.pedRequest = false
  · rw [phasePed_skip input s h]
    exact h
  · have ht : s.pedRequest = true := by
      cases hb : s.pedRequest
      · exact absurd hb h
      · rfl
    exact phasePed_served_pedRequest input s ht

/-- Claim C3: over one full iteration of `loop()`, pedestrian service
happens exactly at the two insertion points — right after NS_YELLOW and
before EW_GREEN, and right after EW_YELLOW and before the next NS_GREEN —
precisely when the latch is set at that point, and never inside a green
or yellow phase (each vehicle phase contributes exactly its own entry to
the phase log).  A request latched at any time is still latched at the
next insertion point, because no vehicle phase ever clears the latch;
the insertion-point check serves a set latch as exactly one PED_GREEN
phase and clears it, and is a no-op when the latch is clear. -/
theorem pedRequest_insertion_point (input : Nat → Buttons) (s : St) :
    ((loopOnce input s).phaseLog =
      s.phaseLog ++ [Phase.PHASE_NS_GREEN, Phase.PHASE_NS_YELLOW]
        ++ (if (phaseNsYellow input (phaseNsGreen input s)).pedRequest = true
            then [Phase.PHASE_PED_GREEN] else [])
        ++ [Phase.PHASE_EW_GREEN, Phase.PHASE_EW_YELLOW]
        ++ (if (phaseEwYellow input (phaseEwGreen input
              (phasePedestrianIfRequested input
                (phaseNsYellow input (phaseNsGreen input s))))).pedRequest =
              true
            then [Phase.PHASE_PED_GREEN] else [])) ∧
    (∀ t : St, t.pedRequest = true →
      (phaseNsGreen input t).pedRequest = true ∧
      (phaseNsYellow input t).pedRequest = true ∧
      (phaseEwGreen input t).pedRequest = true ∧
      (phaseEwYellow input t).pedRequest = true) ∧
    (∀ t : St, t.pedRequest = true →
      (phasePedestrianIfRequested input t).phaseLog =
        t.phaseLog ++ [Phase.PHASE_PED_GREEN] ∧
      (phasePedestrianIfRequested input t).pedRequest = false) ∧
    (∀ t : St, t.pedRequest = false →
      phasePedestrianIfRequested input t = t) := by
  refine ⟨?_, ?_, ?_, ?_⟩
  · cases h2 : (phaseNsYellow input (phaseNsGreen input s)).pedRequest with
    | false =>
      cases h5 : (phaseEwYellow input (phaseEwGreen input
          (phasePedestrianIfRequested input
            (phaseNsYellow input (phaseNsGreen input s))))).pedRequest with
      | false =>
        rw [loopOnce, phasePed_skip input _ h5, phaseEwYellow_phaseLog,
          phaseEwGreen_phaseLog, phasePed_skip input _ h2,
          phaseNsYellow_phaseLog, phaseNsGreen_phaseLog]
        simp
      | true =>
        rw [loopOnce, phasePed_served_phaseLog input _ h5,
          phaseEwYellow_phaseLog, phaseEwGreen_phaseLog,
          phasePed_skip input _ h2, phaseNsYellow_phaseLog,
          phaseNsGreen_phaseLog]
        simp
    | true =>
      cases h5 : (phaseEwYellow input (phaseEwGreen input
          (phasePedestrianIfRequested input
            (phaseNsYellow input (phaseNsGreen input s))))).pedRequest with
      | false =>
        rw [loopOnce, phasePed_skip input _ h5, phaseEwYellow_phaseLog,
          phaseEwGreen_phaseLog, phasePed_served_phaseLog input _ h2,
          phaseNsYellow_phaseLog, phaseNsGreen_phaseLog]
        simp
      | true =>
        rw [loopOnce, phasePed_served_phaseLog input _ h5,
          phaseEwYellow_phaseLog, phaseEwGreen_phaseLog,
          phasePed_served_phaseLog input _ h2, phaseNsYellow_phaseLog,
          phaseNsGreen_phaseLog]
        simp
  · intro t ht
    exact ⟨phaseNsGreen_pedRequest_true input t ht,
      phaseNsYellow_pedRequest_true input t ht,
      phaseEwGreen_pedRequest_true input t ht,
      phaseEwYellow_pedRequest_true input t ht⟩
  · intro t ht
    exact ⟨phasePed_served_phaseLog input t ht,
      phasePed_served_pedRequest input t ht⟩
  · intro t ht
    exact phasePed_skip input t ht

/-- Witness for C3: with the latch set before the cycle and no further
button activity, the full cycle's phase log shows the pedestrian phase
exactly once, between NS_YELLOW and EW_GREEN, and no pedestrian phase at
the second insertion point (the latch was consumed). -/
theorem pedRequest_insertion_point_witness :
    (loopOnce quietInput (mkSt Phase.PHASE_EW_YELLOW 0 0 true)).phaseLog =
      [Phase.PHASE_NS_GREEN, Phase.PHASE_NS_YELLOW, Phase.PHASE_PED_GREEN,
       Phase.PHASE_EW_GREEN, Phase.PHASE_EW_YELLOW] := by
  have h := (pedRequest_insertion_point quietInput
    (mkSt Phase.PHASE_EW_YELLOW 0 0 true)).1
  have h2 : (phaseNsYellow quietInput (phaseNsGreen quietInput
      (mkSt Phase.PHASE_EW_YELLOW 0 0 true))).pedRequest = true :=
    phaseNsYellow_pedRequest_true quietInput _
      (phaseNsGreen_pedRequest_true quietInput _ (by decide))
  have h5 : (phaseEwYellow quietInput (phaseEwGreen quietInput
      (phasePedestrianIfRequested quietInput
        (phaseNsYellow quietInput (phaseNsGreen quietInput
          (mkSt Phase.PHASE_EW_YELLOW 0 0 true)))))).pedRequest = false := by
    rw [phaseEwYellow_pedRequest_quiet, phaseEwGreen_pedRequest_quiet,
      phasePed_pedRequest_always_false]
  rw [h, if_pos h2, if_neg (ne_true_of_eq_false h5)]
  simp [mkSt]

/-! Helper lemmas about the display strings and the LCD log. -/

theorem specVehicleLine2_EW (r c : Nat) :
    specVehicleLine2 "EW" r c = "T=" ++ toString r ++ " EW=" ++ toString c := by
  unfold specVehicleLine2
  simp only [String.append_assoc]
  rfl

theorem specVehicleLine2_NS (r c : Nat) :
    specVehicleLine2 "NS" r c = "T=" ++ toString r ++ " NS=" ++ toString c := by
  unfold specVehicleLine2
  simp only [String.append_assoc]
  rfl

theorem nsButtonStep_lcd_grow (b : Bool) (s : St) :
    ∃ rest, (nsButtonStep b s).lcdLog = s.lcdLog ++ rest := by
  simp only [nsButtonStep, pushLcd]
  split_ifs <;> first | exact ⟨_, rfl⟩ | exact ⟨[], by simp⟩

theorem ewButtonStep_lcd_grow (b : Bool) (s : St) :
    ∃ rest, (ewButtonStep b s).lcdLog = s.lcdLog ++ rest := by
  simp only [ewButtonStep, pushLcd]
  split_ifs <;> first | exact ⟨_, rfl⟩ | exact ⟨[], by simp⟩

theorem pedButtonStep_lcd_grow (b : Bool) (s : St) :
    ∃ rest, (pedButtonStep b s).lcdLog = s.lcdLog ++ rest := by
  simp only [pedButtonStep, pushLcd]
  split_ifs <;> first | exact ⟨_, rfl⟩ | exact ⟨[], by simp⟩

theorem readButtons_lcd_grow (input : Nat → Buttons) (s : St) :
    ∃ rest, (readButtons input s).lcdLog = s.lcdLog ++ rest := by
  rw [readButtons]
  obtain ⟨r1, h1⟩ := nsButtonStep_lcd_grow (input s.pollIdx).ns s
  obtain ⟨r2, h2⟩ := ewButtonStep_lcd_grow (input s.pollIdx).ew
    (nsButtonStep (input s.pollIdx).ns s)
  obtain ⟨r3, h3⟩ := pedButtonStep_lcd_grow (input s.pollIdx).ped
    (ewButtonStep (input s.pollIdx).ew (nsButtonStep (input s.pollIdx).ns s))
  refine ⟨r1 ++ r2 ++ r3, ?_⟩
  show (pedButtonStep (input s.pollIdx).ped
    (ewButtonStep (input s.pollIdx).ew
      (nsButtonStep (input s.pollIdx).ns s))).lcdLog = _
  rw [h3, h2, h1]
  simp [List.append_assoc]

theorem pollLoop_lcd_grow (input : Nat → Buttons) (n : Nat) (s : St) :
    ∃ rest, (pollLoop input n s).lcdLog = s.lcdLog ++ rest := by
  induction n generalizing s with
  | zero => exact ⟨[], by simp [pollLoop]⟩
  | succ n ih =>
    rw [pollLoop]
    obtain ⟨r1, h1⟩ := readButtons_lcd_grow input s
    obtain ⟨r2, h2⟩ := ih (readButtons input s)
    exact ⟨r1 ++ r2, by rw [h2, h1, List.append_assoc]⟩

theorem wait_lcd_grow (input : Nat → Buttons) (s : St) :
    ∃ rest, (waitOneSecondWithButtons input s).lcdLog = s.lcdLog ++ rest := by
  rw [waitOneSecondWithButtons]
  exact pollLoop_lcd_grow input 50 s

theorem nsGreenLoop_lcd_grow (input : Nat → Buttons) (b : Nat) (e : Int)
    (r : Nat) (s : St) :
    ∃ rest, (nsGreenLoop input b e r s).lcdLog = s.lcdLog ++ rest := by
  induction r generalizing s with
  | zero => exact ⟨[], by simp [nsGreenLoop]⟩
  | succ r ih =>
    rw [nsGreenLoop]
    obtain ⟨r1, h1⟩ := wait_lcd_grow input (nsGreenLcd b e (r + 1) s)
    obtain ⟨r2, h2⟩ :=
      ih (waitOneSecondWithButtons input (nsGreenLcd b e (r + 1) s))
    refine ⟨("NSG " ++ toString b ++ "+" ++ toString e ++ "s",
      "T=" ++ toString (r + 1) ++ " EW=" ++ toString s.trafficCountEW) ::
        (r1 ++ r2), ?_⟩
    rw [h2, h1]
    simp [nsGreenLcd, lcdRefresh]

theorem ewGreenLoop_lcd_grow (input : Nat → Buttons) (b : Nat) (e : Int)
    (r : Nat) (s : St) :
    ∃ rest, (ewGreenLoop input b e r s).lcdLog = s.lcdLog ++ rest := by
  induction r generalizing s with
  | zero => exact ⟨[], by simp [ewGreenLoop]⟩
  | succ r ih =>
    rw [ewGreenLoop]
    obtain ⟨r1, h1⟩ := wait_lcd_grow input (ewGreenLcd b e (r + 1) s)
    obtain ⟨r2, h2⟩ :=
      ih (waitOneSecondWithButtons input (ewGreenLcd b e (r + 1) s))
    refine ⟨("EWG " ++ toString b ++ "+" ++ toString e ++ "s",
      "T=" ++ toString (r + 1) ++ " NS=" ++ toString s.trafficCountNS) ::
        (r1 ++ r2), ?_⟩
    rw [h2, h1]
    simp [ewGreenLcd, lcdRefresh]

set_option maxRecDepth 10000 in
/-- Counterexample to claim C8 as stated: the NS yellow phase is a
vehicle phase, yet its per-second refresh puts the remaining seconds on
line 1 and writes only `"EW=<count>"` on line 2 — at the first refresh
(remaining 3, EW count 0) the screen is `("NSY T=3s", "EW=0")`, whose
line 2 differs from the claimed form `"T=3 EW=0"`. -/
theorem vehicleLine2_yellow_counterexample :
    (phaseNsYellow quietInput
      (mkSt Phase.PHASE_NS_GREEN 0 0 false)).tickLog.head? =
        some (Site.nsYellowTick, 3) ∧
    (phaseNsYellow quietInput
      (mkSt Phase.PHASE_NS_GREEN 0 0 false)).lcdLog.head? =
        some ("NSY T=3s", "EW=0") ∧
    ("EW=0" : String) ≠ specVehicleLine2 "EW" 3 0 :=
  ⟨by decide, by decide, by decide⟩

/-- Claim C8, amended: during the green phases each per-second refresh
writes line 2 in the form `"T=<remaining> <OTHER>=<count>"` with the
other approach's live pending count, and each green countdown iteration
emits exactly such a refresh with the count live at that instant; during
the yellow phases the remaining seconds appear on line 1
(`"<DIR>Y T=<remaining>s"`) and line 2 carries only the other approach's
live count (`"<OTHER>=<count>"`); during the pedestrian phase line 2
shows the countdown with the fixed walk legend (`"T=<remaining> WALK"`). -/
theorem displayRefresh_formats (input : Nat → Buttons) (b : Nat) (e : Int)
    (r : Nat) (s : St) :
    ((nsGreenLcd b e r s).lcdLog = s.lcdLog ++
      [("NSG " ++ toString b ++ "+" ++ toString e ++ "s",
        specVehicleLine2 "EW" r s.trafficCountEW)]) ∧
    ((ewGreenLcd b e r s).lcdLog = s.lcdLog ++
      [("EWG " ++ toString b ++ "+" ++ toString e ++ "s",
        specVehicleLine2 "NS" r s.trafficCountNS)]) ∧
    ((nsYellowLcd r s).lcdLog = s.lcdLog ++
      [("NSY T=" ++ toString r ++ "s", "EW=" ++ toString s.trafficCountEW)]) ∧
    ((ewYellowLcd r s).lcdLog = s.lcdLog ++
      [("EWY T=" ++ toString r ++ "s", "NS=" ++ toString s.trafficCountNS)]) ∧
    ((pedLcd r s).lcdLog = s.lcdLog ++
      [("PEDESTRIAN", "T=" ++ toString r ++ " WALK")]) ∧
    (∃ rest, (nsGreenLoop input b e (r + 1) s).lcdLog = s.lcdLog ++
      ("NSG " ++ toString b ++ "+" ++ toString e ++ "s",
        specVehicleLine2 "EW" (r + 1) s.trafficCountEW) :: rest) ∧
    (∃ rest, (ewGreenLoop input b e (r + 1) s).lcdLog = s.lcdLog ++
      ("EWG " ++ toString b ++ "+" ++ toString e ++ "s",
        specVehicleLine2 "NS" (r + 1) s.trafficCountNS) :: rest) := by
  refine ⟨?_, ?_, ?_, ?_, ?_, ?_, ?_⟩
  · rw [specVehicleLine2_EW]
    simp [nsGreenLcd, lcdRefresh]
  · rw [specVehicleLine2_NS]
    simp [ewGreenLcd, lcdRefresh]
  · simp [nsYellowLcd, lcdRefresh]
  · simp [ewYellowLcd, lcdRefresh]
  · simp [pedLcd, lcdRefresh]
  · rw [specVehicleLine2_EW]
    rw [nsGreenLoop]
    obtain ⟨r1, h1⟩ := wait_lcd_grow input (nsGreenLcd b e (r + 1) s)
    obtain ⟨r2, h2⟩ :=
      nsGreenLoop_lcd_grow input b e r
        (waitOneSecondWithButtons input (nsGreenLcd b e (r + 1) s))
    refine ⟨r1 ++ r2, ?_⟩
    rw [h2, h1]
    simp [nsGreenLcd, lcdRefresh]
  · rw [specVehicleLine2_NS]
    rw [ewGreenLoop]
    obtain ⟨r1, h1⟩ := wait_lcd_grow input (ewGreenLcd b e (r + 1) s)
    obtain ⟨r2, h2⟩ :=
      ewGreenLoop_lcd_grow input b e r
        (waitOneSecondWithButtons input (ewGreenLcd b e (r + 1) s))
    refine ⟨r1 ++ r2, ?_⟩
    rw [h2, h1]
    simp [ewGreenLcd, lcdRefresh]

/-! Lemmas for the LED safety invariant (claim C4). -/

theorem ledOkB_greens {p : Phase} {l : Leds} (h : ledOkB p l = true) :
    (l.nsGreen && l.ewGreen) = false := by
  rcases l with ⟨a, b, c, d, e, f, g, hp⟩
  cases c <;> cases f <;> simp_all [ledOkB]

theorem ledOkB_of_parts {l : Leds} (hg : (l.nsGreen && l.ewGreen) = false)
    (hp : l.pedGreen = false) (p : Phase) : ledOkB p l = true := by
  simp [ledOkB, hg, hp]

theorem goodB_eq_of_frames {s t : St} (hl : t.ledLog = s.ledLog)
    (hc : t.currentPhase = s.currentPhase) (hd : t.leds = s.leds) :
    goodB t = goodB s := by
  simp [goodB, ledInvB, hl, hc, hd]

theorem pedInvB_eq_of_frames {s t : St} (hl : t.ledLog = s.ledLog)
    (hc : t.currentPhase = s.currentPhase) (hd : t.leds = s.leds) :
    pedInvB t = pedInvB s := by
  simp [pedInvB, ledInvB, hl, hc, hd]

theorem goodB_readButtons (input : Nat → Buttons) (s : St) :
    goodB (readButtons input s) = goodB s :=
  goodB_eq_of_frames (readButtons_ledLog input s)
    (readButtons_currentPhase input s) (readButtons_leds input s)

theorem goodB_setPhase (p : Phase) (s : St) (h : goodB s = true) :
    goodB (setPhase p s) = true := by
  simp only [goodB, ledInvB, Bool.and_eq_true, List.all_eq_true] at h
  obtain ⟨⟨hlog, hcur⟩, hped⟩ := h
  have hg : (s.leds.nsGreen && s.leds.ewGreen) = false := ledOkB_greens hcur
  have hp : s.leds.pedGreen = false := by simpa using hped
  simp only [goodB, ledInvB, Bool.and_eq_true, List.all_eq_true, setPhase]
  refine ⟨⟨?_, ?_⟩, ?_⟩
  · intro e he
    rcases List.mem_append.mp he with he | he
    · exact hlog e he
    · rcases List.mem_singleton.mp he with rfl
      exact ledOkB_of_parts hg hp p
  · exact ledOkB_of_parts hg hp p
  · simpa using hp

theorem pedInvB_setPhasePed (s : St) (h : goodB s = true) :
    pedInvB (setPhase Phase.PHASE_PED_GREEN s) = true := by
  have h1 := goodB_setPhase Phase.PHASE_PED_GREEN s h
  simp only [goodB, Bool.and_eq_true] at h1
  simp only [pedInvB, Bool.and_eq_true]
  exact ⟨h1.1, by simp⟩

theorem goodB_setNsGreenState (s : St) (h : goodB s = true) :
    goodB (setNsGreenState s) = true := by
  simp only [goodB, ledInvB, Bool.and_eq_true, List.all_eq_true] at h
  obtain ⟨⟨hlog, hcur⟩, hped⟩ := h
  have hg : (s.leds.nsGreen && s.leds.ewGreen) = false := ledOkB_greens hcur
  have hp : s.leds.pedGreen = false := by simpa using hped
  simp only [goodB, ledInvB, Bool.and_eq_true, List.all_eq_true,
    setNsGreenState, setAllVehicleRed, digitalWrite_ledLog, digitalWrite_leds,
    digitalWrite_currentPhase, Leds.write, List.append_assoc,
    List.singleton_append]
  refine ⟨⟨?_, ?_⟩, ?_⟩
  · intro e he
    rcases List.mem_append.mp he with he | he
    · exact hlog e he
    · fin_cases he <;> simp [ledOkB, hg, hp, HIGH, LOW]
  · simp [ledOkB, hg, hp, HIGH, LOW]
  · simp [hp, HIGH, LOW]

theorem goodB_setNsYellowState (s : St) (h : goodB s = true) :
    goodB (setNsYellowState s) = true := by
  simp only [goodB, ledInvB, Bool.and_eq_true, List.all_eq_true] at h
  obtain ⟨⟨hlog, hcur⟩, hped⟩ := h
  have hg : (s.leds.nsGreen && s.leds.ewGreen) = false := ledOkB_greens hcur
  have hp : s.leds.pedGreen = false := by simpa using hped
  simp only [goodB, ledInvB, Bool.and_eq_true, List.all_eq_true,
    setNsYellowState, setAllVehicleRed, digitalWrite_ledLog, digitalWrite_leds,
    digitalWrite_currentPhase, Leds.write, List.append_assoc,
    List.singleton_append]
  refine ⟨⟨?_, ?_⟩, ?_⟩
  · intro e he
    rcases List.mem_append.mp he with he | he
    · exact hlog e he
    · fin_cases he <;> simp [ledOkB, hg, hp, HIGH, LOW]
  · simp [ledOkB, hg, hp, HIGH, LOW]
  · simp [hp, HIGH, LOW]

theorem goodB_setEwGreenState (s : St) (h : goodB s = true) :
    goodB (setEwGreenState s) = true := by
  simp only [goodB, ledInvB, Bool.and_eq_true, List.all_eq_true] at h
  obtain ⟨⟨hlog, hcur⟩, hped⟩ := h
  have hg : (s.leds.nsGreen && s.leds.ewGreen) = false := ledOkB_greens hcur
  have hp : s.leds.pedGreen = false := by simpa using hped
  simp only [goodB, ledInvB, Bool.and_eq_true, List.all_eq_true,
    setEwGreenState, setAllVehicleRed, digitalWrite_ledLog, digitalWrite_leds,
    digitalWrite_currentPhase, Leds.write, List.append_assoc,
    List.singleton_append]
  refine ⟨⟨?_, ?_⟩, ?_⟩
  · intro e he
    rcases List.mem_append.mp he with he | he
    · exact hlog e he
    · fin_cases he <;> simp [ledOkB, hg, hp, HIGH, LOW]
  · simp [ledOkB, hg, hp, HIGH, LOW]
  · simp [hp, HIGH, LOW]

theorem goodB_setEwYellowState (s : St) (h : goodB s = true) :
    goodB (setEwYellowState s) = true := by
  simp only [goodB, ledInvB, Bool.and_eq_true, List.all_eq_true] at h
  obtain ⟨⟨hlog, hcur⟩, hped⟩ := h
  have hg : (s.leds.nsGreen && s.leds.ewGreen) = false := ledOkB_greens hcur
  have hp : s.leds.pedGreen = false := by simpa using hped
  simp only [goodB, ledInvB, Bool.and_eq_true, List.all_eq_true,
    setEwYellowState, setAllVehicleRed, digitalWrite_ledLog, digitalWrite_leds,
    digitalWrite_currentPhase, Leds.write, List.append_assoc,
    List.singleton_append]
  refine ⟨⟨?_, ?_⟩, ?_⟩
  · intro e he
    rcases List.mem_append.mp he with he | he
    · exact hlog e he
    · fin_cases he <;> simp [ledOkB, hg, hp, HIGH, LOW]
  · simp [ledOkB, hg, hp, HIGH, LOW]
  · simp [hp, HIGH, LOW]

theorem pedInvB_setPedestrianGreenState (s : St) (h : pedInvB s = true) :
    pedInvB (setPedestrianGreenState s) = true := by
  simp only [pedInvB, ledInvB, Bool.and_eq_true, List.all_eq_true,
    beq_iff_eq] at h
  obtain ⟨⟨hlog, hcur⟩, hphase⟩ := h
  have hg : (s.leds.nsGreen && s.leds.ewGreen) = false := ledOkB_greens hcur
  simp only [pedInvB, ledInvB, Bool.and_eq_true, List.all_eq_true,
    setPedestrianGreenState, setAllVehicleRed, digitalWrite_ledLog,
    digitalWrite_leds, digitalWrite_currentPhase, Leds.write,
    List.append_assoc, List.singleton_append, beq_iff_eq]
  refine ⟨⟨?_, ?_⟩, hphase⟩
  · intro e he
    rcases List.mem_append.mp he with he | he
    · exact hlog e he
    · fin_cases he <;> simp [ledOkB, hg, hphase, HIGH, LOW]
  · simp [ledOkB, hg, hphase, HIGH, LOW]

theorem goodB_pedExit (s : St) (h : pedInvB s = true) :
    goodB (digitalWrite Pin.PIN_PED_GREEN LOW
      (digitalWrite Pin.PIN_PED_RED HIGH (setAllVehicleRed s))) = true := by
  simp only [pedInvB, ledInvB, Bool.and_eq_true, List.all_eq_true,
    beq_iff_eq] at h
  obtain ⟨⟨hlog, hcur⟩, hphase⟩ := h
  have hg : (s.leds.nsGreen && s.leds.ewGreen) = false := ledOkB_greens hcur
  simp only [goodB, ledInvB, Bool.and_eq_true, List.all_eq_true,
    setAllVehicleRed, digitalWrite_ledLog, digitalWrite_leds,
    digitalWrite_currentPhase, Leds.write, List.append_assoc,
    List.singleton_append]
  refine ⟨⟨?_, ?_⟩, ?_⟩
  · intro e he
    rcases List.mem_append.mp he with he | he
    · exact hlog e he
    · fin_cases he <;> simp [ledOkB, hg, hphase, HIGH, LOW]
  · simp [ledOkB, HIGH, LOW]
  · simp [HIGH, LOW]

@[simp]
theorem goodB_pollLoop (input : Nat → Buttons) (n : Nat) (s : St) :
    goodB (pollLoop input n s) = goodB s :=
  goodB_eq_of_frames (pollLoop_ledLog input n s)
    (pollLoop_currentPhase input n s) (pollLoop_leds input n s)

@[simp]
theorem goodB_wait (input : Nat → Buttons) (s : St) :
    goodB (waitOneSecondWithButtons input s) = goodB s :=
  goodB_eq_of_frames (wait_ledLog input s) (wait_currentPhase input s)
    (wait_leds input s)

@[simp]
theorem goodB_nsGreenLoop (input : Nat → Buttons) (b : Nat) (e : Int)
    (r : Nat) (s : St) : goodB (nsGreenLoop input b e r s) = goodB s :=
  goodB_eq_of_frames (nsGreenLoop_ledLog input b e r s)
    (nsGreenLoop_currentPhase input b e r s) (nsGreenLoop_leds input b e r s)

@[simp]
theorem goodB_ewGreenLoop (input : Nat → Buttons) (b : Nat) (e : Int)
    (r : Nat) (s : St) : goodB (ewGreenLoop input b e r s) = goodB s :=
  goodB_eq_of_frames (ewGreenLoop_ledLog input b e r s)
    (ewGreenLoop_currentPhase input b e r s) (ewGreenLoop_leds input b e r s)

@[simp]
theorem pedInvB_pedLoop (input : Nat → Buttons) (r : Nat) (s : St) :
    pedInvB (pedLoop input r s) = pedInvB s :=
  pedInvB_eq_of_frames (pedLoop_ledLog input r s)
    (pedLoop_currentPhase input r s) (pedLoop_leds input r s)

@[simp]
theorem goodB_setCountNS (s : St) (n : Nat) :
    goodB { s with trafficCountNS := n } = goodB s :=
  goodB_eq_of_frames rfl rfl rfl

@[simp]
theorem goodB_setCountEW (s : St) (n : Nat) :
    goodB { s with trafficCountEW := n } = goodB s :=
  goodB_eq_of_frames rfl rfl rfl

@[simp]
theorem goodB_setPedReq (s : St) (b : Bool) :
    goodB { s with pedRequest := b } = goodB s :=
  goodB_eq_of_frames rfl rfl rfl

@[simp]
theorem goodB_pushLcd (l1 l2 : String) (s : St) :
    goodB (pushLcd l1 l2 s) = goodB s :=
  goodB_eq_of_frames rfl rfl rfl

theorem goodB_nsYellowLoop (input : Nat → Buttons) (r : Nat) (s : St)
    (h : goodB s = true) : goodB (nsYellowLoop input r s) = true := by
  induction r generalizing s with
  | zero => exact h
  | succ r ih =>
    rw [nsYellowLoop]
    apply ih
    rw [goodB_wait]
    have h1 : goodB (nsYellowLcd (r + 1) s) = goodB s :=
      goodB_eq_of_frames (by simp [nsYellowLcd]) (by simp [nsYellowLcd])
        (by simp [nsYellowLcd])
    exact goodB_setNsYellowState _ (by rw [h1]; exact h)

theorem goodB_ewYellowLoop (input : Nat → Buttons) (r : Nat) (s : St)
    (h : goodB s = true) : goodB (ewYellowLoop input r s) = true := by
  induction r generalizing s with
  | zero => exact h
  | succ r ih =>
    rw [ewYellowLoop]
    apply ih
    rw [goodB_wait]
    have h1 : goodB (ewYellowLcd (r + 1) s) = goodB s :=
      goodB_eq_of_frames (by simp [ewYellowLcd]) (by simp [ewYellowLcd])
        (by simp [ewYellowLcd])
    exact goodB_setEwYellowState _ (by rw [h1]; exact h)

theorem goodB_phaseNsGreen (input : Nat → Buttons) (s : St)
    (h : goodB s = true) : goodB (phaseNsGreen input s) = true := by
  simp only [phaseNsGreen, goodB_setCountNS, goodB_nsGreenLoop]
  exact goodB_setNsGreenState _ (goodB_setPhase _ _ h)

theorem goodB_phaseEwGreen (input : Nat → Buttons) (s : St)
    (h : goodB s = true) : goodB (phaseEwGreen input s) = true := by
  simp only [phaseEwGreen, goodB_setCountEW, goodB_ewGreenLoop]
  exact goodB_setEwGreenState _ (goodB_setPhase _ _ h)

theorem goodB_phaseNsYellow (input : Nat → Buttons) (s : St)
    (h : goodB s = true) : goodB (phaseNsYellow input s) = true := by
  rw [phaseNsYellow]
  exact goodB_nsYellowLoop input YELLOW_TIME_SEC _ (goodB_setPhase _ _ h)

theorem goodB_phaseEwYellow (input : Nat → Buttons) (s : St)
    (h : goodB s = true) : goodB (phaseEwYellow input s) = true := by
  rw [phaseEwYellow]
  exact goodB_ewYellowLoop input YELLOW_TIME_SEC _ (goodB_setPhase _ _ h)

theorem goodB_phasePed (input : Nat → Buttons) (s : St)
    (h : goodB s = true) :
    goodB (phasePedestrianIfRequested input s) = true := by
  by_cases hp : s.pedRequest = false
  · rw [phasePed_skip input s hp]
    exact h
  · simp only [phasePedestrianIfRequested]
    rw [if_neg hp]
    simp only [goodB_setPedReq, goodB_pushLcd]
    refine goodB_pedExit _ ?_
    rw [pedInvB_pedLoop]
    exact pedInvB_setPedestrianGreenState _ (pedInvB_setPhasePed s h)

theorem goodB_loopOnce (input : Nat → Buttons) (s : St)
    (h : goodB s = true) : goodB (loopOnce input s) = true := by
  rw [loopOnce]
  exact goodB_phasePed _ _ (goodB_phaseEwYellow _ _ (goodB_phaseEwGreen _ _
    (goodB_phasePed _ _ (goodB_phaseNsYellow _ _
      (goodB_phaseNsGreen _ _ h)))))

theorem goodB_setupSt : goodB setupSt = true := by decide

theorem goodB_run (input : Nat → Buttons) (n : Nat) :
    goodB (run input n) = true := by
  induction n with
  | zero => exact goodB_setupSt
  | succ n ih => exact goodB_loopOnce input _ ih

/-- Claim C4: in every reachable state, every recorded signal-output
instant — one record per `digitalWrite` and per phase change, so
including the transient states inside a composite signal-state update
(all-red first, then selectively asserting one color) — has at most one
of the NS-green and EW-green vehicle outputs asserted and has the
pedestrian-green output asserted only while the phase is PED_GREEN, and
the same holds for the current output state. -/
theorem led_safety_invariant (input : Nat → Buttons) (n : Nat) :
    ((run input n).ledLog.all fun e => ledOkB e.1 e.2) = true ∧
    ledOkB (run input n).currentPhase (run input n).leds = true := by
  have h := goodB_run input n
  simp only [goodB, ledInvB, Bool.and_eq_true] at h
  exact ⟨h.1.1, h.1.2⟩

end TrafficLight
